import Mathlib

/-!
# Verification of the go-rate-limiter admission engines

A shallow embedding of the rate-limiting core of the `go-rate-limiter`
repository: the token-bucket, sliding-window-log and sliding-window-counter
engines, their atomic store-side scripts, the constructors, and the metrics
decorator.

Modelling conventions:
* Times and durations are nanoseconds, represented as `ℤ` (Go `int64`).
* The store's script language computes in IEEE doubles; the embedding uses
  exact rationals `ℚ` for that arithmetic (floating-point rounding is
  abstracted away).
* A Lua number returned from a script is delivered to Go as an integer by
  truncation toward zero (`ratTrunc`), exactly as the store client behaves.
* Go `int64` division truncates toward zero (`goQuo`).
* The store client reference is modelled by a `Bool` (present / nil), and a
  Go `error` by `Option String`.
* Per-key store state is passed explicitly; each engine's `isAllowed` maps
  a state and a caller timestamp to the successor state and the response,
  mirroring one atomic script evaluation plus the engine's parsing.
-/

namespace GoRateLimiter

/-- Truncation of a rational toward zero: the conversion applied both by the
Go `int64(...)` cast and by the store when a script returns a Lua number. -/
def ratTrunc (q : ℚ) : ℤ := if 0 ≤ q then ⌊q⌋ else ⌈q⌉

/-- Go `int64` division (`/` in Go source), which truncates toward zero. -/
def goQuo (a b : ℤ) : ℤ := Int.tdiv a b

/-- `DefaultTTLBufferSeconds` from `constants.go`. -/
def DefaultTTLBufferSeconds : ℤ := 60

/-- `MinimumTTLSeconds` from `constants.go`. -/
def MinimumTTLSeconds : ℤ := 60

/-- `NanosecondsPerSecond` from `constants.go`. -/
def NanosecondsPerSecond : ℤ := 1000000000

theorem ratTrunc_of_nonneg {q : ℚ} (h : 0 ≤ q) : ratTrunc q = ⌊q⌋ := if_pos h

theorem goQuo_eq_ediv {a b : ℤ} (ha : 0 ≤ a) (hb : 0 ≤ b) : goQuo a b = a / b := by
  unfold goQuo
  lift a to ℕ using ha
  lift b to ℕ using hb
  rfl

/-- The shared admission response (`RateLimitResponse` in `types.go`), with
times flattened to nanosecond integers.  Algorithm-specific metadata that a
claim needs is carried by the engine-specific response types below. -/
structure RateLimitResponse where
  allowed : Bool
  limit : ℤ
  remaining : ℤ
  resetTimeNanos : ℤ
  retryAfterNanos : Option ℤ
  deriving Repr, DecidableEq

/-! ## Token bucket (`token_bucket.go`) -/

/-- `TokenBucketConfig`, with the window duration in nanoseconds. -/
structure TokenBucketConfig where
  bucketSize : ℤ
  refillRatePerSecond : ℤ
  keyPrefix : String
  ttlBufferSeconds : ℤ
  deriving Repr, DecidableEq

/-- The `TokenBucketRateLimiter` struct. -/
structure TokenBucketRateLimiter where
  bucketSize : ℤ
  refillRatePerSecond : ℤ
  keyPrefix : String
  ttlBuffer : ℤ
  deriving Repr, DecidableEq

/-- `NewTokenBucketRateLimiter`: validates the configuration and defaults the
TTL buffer.  The store client argument is modelled by `hasRedisClient`. -/
def NewTokenBucketRateLimiter (config : TokenBucketConfig) (hasRedisClient : Bool) :
    Option TokenBucketRateLimiter :=
  if config.bucketSize ≤ 0 ∨ config.refillRatePerSecond ≤ 0 ∨ hasRedisClient = false then
    none
  else
    let ttlBufferSeconds :=
      if config.ttlBufferSeconds ≤ 0 then DefaultTTLBufferSeconds else config.ttlBufferSeconds
    some { bucketSize := config.bucketSize
           refillRatePerSecond := config.refillRatePerSecond
           keyPrefix := config.keyPrefix
           ttlBuffer := ttlBufferSeconds }

/-- The per-key hash stored by the token-bucket script (`tokens`,
`last_refill_time_nanos`) together with the TTL the script last set.
`tokens` is fractional in the store, hence `ℚ`. -/
structure TokenBucketEntry where
  tokens : ℚ
  lastRefillTimeNanos : ℤ
  ttlSeconds : ℚ
  deriving Repr, DecidableEq

/-- The refilled token count the token-bucket script computes before
deciding: read the stored tokens and last refill time (or treat an absent
key as a full bucket refilled now), add `elapsed_seconds × refill_rate`, and
cap at the bucket size. -/
def tbRefilledTokens (bucketSize refillRate currentTimeNanos : ℤ)
    (state : Option TokenBucketEntry) : ℚ :=
  let currentTokens0 : ℚ :=
    match state with
    | some e => e.tokens
    | none => (bucketSize : ℚ)
  let lastRefillTimeNanos : ℤ :=
    match state with
    | some e => e.lastRefillTimeNanos
    | none => currentTimeNanos
  let timeSinceLastRefillSeconds : ℚ :=
    ((currentTimeNanos - lastRefillTimeNanos : ℤ) : ℚ) / (NanosecondsPerSecond : ℚ)
  let tokensToRefill : ℚ := timeSinceLastRefillSeconds * (refillRate : ℚ)
  min (bucketSize : ℚ) (currentTokens0 + tokensToRefill)

/-- One evaluation of the token-bucket Lua script.  Returns the new stored
entry and the raw script result `{allowed, tokens, time_nanos}` as Lua
numbers.  An absent key is `none`; the script then treats the bucket as full
and the last refill as now. -/
def tokenBucketScript (bucketSize refillRate currentTimeNanos ttlBufferSeconds : ℤ)
    (state : Option TokenBucketEntry) : TokenBucketEntry × (ℚ × ℚ × ℚ) :=
  let currentTokens : ℚ := tbRefilledTokens bucketSize refillRate currentTimeNanos state
  let ttlSeconds : ℚ :=
    max (MinimumTTLSeconds : ℚ) ((bucketSize : ℚ) / (refillRate : ℚ) + (ttlBufferSeconds : ℚ))
  if currentTokens < 1 then
    let tokensNeeded : ℚ := 1 - currentTokens
    let secondsUntilToken : ℚ := tokensNeeded / (refillRate : ℚ)
    let nextTokenTimeNanos : ℚ :=
      (currentTimeNanos : ℚ) + secondsUntilToken * (NanosecondsPerSecond : ℚ)
    ({ tokens := currentTokens, lastRefillTimeNanos := currentTimeNanos,
       ttlSeconds := ttlSeconds },
     (0, currentTokens, nextTokenTimeNanos))
  else
    let remainingTokens : ℚ := currentTokens - 1
    let tokensToFull : ℚ := (bucketSize : ℚ) - remainingTokens
    let secondsToFull : ℚ := tokensToFull / (refillRate : ℚ)
    let fullTimeNanos : ℚ :=
      (currentTimeNanos : ℚ) + secondsToFull * (NanosecondsPerSecond : ℚ)
    ({ tokens := remainingTokens, lastRefillTimeNanos := currentTimeNanos,
       ttlSeconds := ttlSeconds },
     (1, remainingTokens, fullTimeNanos))

/-- `TokenBucketRateLimiter.IsAllowed`: evaluates the script against the
current per-key state and parses the integer-coerced result array into a
response. -/
def TokenBucketRateLimiter.isAllowed (tb : TokenBucketRateLimiter)
    (state : Option TokenBucketEntry) (timestampNanos : ℤ) :
    Option TokenBucketEntry × RateLimitResponse :=
  let res := tokenBucketScript tb.bucketSize tb.refillRatePerSecond timestampNanos
    tb.ttlBuffer state
  let allowed : ℤ := ratTrunc res.2.1
  let tokens : ℤ := ratTrunc res.2.2.1
  let timeNanos : ℤ := ratTrunc res.2.2.2
  if allowed = 1 then
    (some res.1,
     { allowed := true, limit := tb.bucketSize, remaining := tokens,
       resetTimeNanos := timeNanos, retryAfterNanos := none })
  else
    (some res.1,
     { allowed := false, limit := tb.bucketSize, remaining := 0,
       resetTimeNanos := timeNanos,
       retryAfterNanos := some (timeNanos - timestampNanos) })

/-- Folds `isAllowed` over a list of caller timestamps, collecting the
responses: a sequence of admission calls against one key. -/
def TokenBucketRateLimiter.run (tb : TokenBucketRateLimiter) :
    Option TokenBucketEntry → List ℤ → Option TokenBucketEntry × List RateLimitResponse
  | st, [] => (st, [])
  | st, t :: ts =>
    let step := tb.isAllowed st t
    let rest := tb.run step.1 ts
    (rest.1, step.2 :: rest.2)

/-! ## Sliding-window log (`sliding_window_log.go`) -/

/-- `SlidingWindowLogConfig`, with the window duration in nanoseconds
(`WindowSize time.Duration`). -/
structure SlidingWindowLogConfig where
  windowSizeNanos : ℤ
  bucketSize : ℤ
  keyPrefix : String
  ttlBufferSeconds : ℤ
  deriving Repr, DecidableEq

/-- The `SlidingWindowLogRateLimiter` struct.  `windowSizeSeconds` is the
configured duration truncated to whole seconds, as by
`int64(config.WindowSize.Seconds())`. -/
structure SlidingWindowLogRateLimiter where
  windowSizeSeconds : ℤ
  keyPrefix : String
  bucketSize : ℤ
  ttlBuffer : ℤ
  deriving Repr, DecidableEq

/-- `NewSlidingWindowLogRateLimiter`. -/
def NewSlidingWindowLogRateLimiter (config : SlidingWindowLogConfig)
    (hasRedisClient : Bool) : Option SlidingWindowLogRateLimiter :=
  if config.windowSizeNanos ≤ 0 ∨ config.bucketSize ≤ 0 ∨ hasRedisClient = false then
    none
  else
    let ttlBufferSeconds :=
      if config.ttlBufferSeconds ≤ 0 then DefaultTTLBufferSeconds else config.ttlBufferSeconds
    some { windowSizeSeconds := goQuo config.windowSizeNanos NanosecondsPerSecond
           keyPrefix := config.keyPrefix
           bucketSize := config.bucketSize
           ttlBuffer := ttlBufferSeconds }

/-- Per-key state of the log engine: the sorted-set member scores (request
timestamps in nanoseconds; members are unique via a random suffix, so a list
models the multiset of scores) plus the TTL the script last set. -/
structure SlidingWindowLogState where
  members : List ℤ
  ttlSeconds : Option ℤ
  deriving Repr, DecidableEq

/-- The empty key: no sorted set stored. -/
def SlidingWindowLogState.empty : SlidingWindowLogState := ⟨[], none⟩

/-- Result array of the sliding-window-log script:
`{allowed, count, reset_time_seconds[, remaining]}`. -/
structure SlidingWindowLogScriptResult where
  allowed : ℤ
  count : ℤ
  resetTimeSeconds : ℚ
  remaining : Option ℤ
  deriving Repr, DecidableEq

/-- One evaluation of the sliding-window-log Lua script: prune scores
`≤ window_start_nanos`, deny when the remaining cardinality reaches
`bucket_size` (reporting the oldest score's expiry), otherwise add the
current timestamp and refresh the TTL. -/
def slidingWindowLogScript (windowStartNanos currentTimestampNanos bucketSize
    windowSizeSeconds ttlBufferSeconds : ℤ) (state : SlidingWindowLogState) :
    SlidingWindowLogState × SlidingWindowLogScriptResult :=
  let pruned : List ℤ := state.members.filter (fun m => windowStartNanos < m)
  let currentCount : ℤ := pruned.length
  if bucketSize ≤ currentCount then
    let resetTimeSeconds : ℚ :=
      match pruned.min? with
      | some oldestTimestampNanos =>
        ((oldestTimestampNanos : ℚ) + (windowSizeSeconds : ℚ) * (NanosecondsPerSecond : ℚ)) /
          (NanosecondsPerSecond : ℚ)
      | none => 0
    ({ members := pruned, ttlSeconds := state.ttlSeconds },
     { allowed := 0, count := currentCount, resetTimeSeconds := resetTimeSeconds,
       remaining := none })
  else
    ({ members := currentTimestampNanos :: pruned,
       ttlSeconds := some (windowSizeSeconds + ttlBufferSeconds) },
     { allowed := 1, count := currentCount + 1, resetTimeSeconds := 0,
       remaining := some (bucketSize - currentCount - 1) })

/-- `SlidingWindowLogRateLimiter.IsAllowed`: computes the pruning threshold
from the truncated window, evaluates the script, and maps the
integer-coerced result into a response (`calculateRetryAfter` clamps a
negative retry hint to zero). -/
def SlidingWindowLogRateLimiter.isAllowed (swl : SlidingWindowLogRateLimiter)
    (state : SlidingWindowLogState) (timestampNanos : ℤ) :
    SlidingWindowLogState × RateLimitResponse :=
  let windowStartNanos : ℤ := timestampNanos - swl.windowSizeSeconds * NanosecondsPerSecond
  let res := slidingWindowLogScript windowStartNanos timestampNanos swl.bucketSize
    swl.windowSizeSeconds swl.ttlBuffer state
  let resetTimeSeconds : ℤ := ratTrunc res.2.resetTimeSeconds
  let resetTimeNanos : ℤ :=
    if 0 < resetTimeSeconds then resetTimeSeconds * NanosecondsPerSecond
    else timestampNanos + swl.windowSizeSeconds * NanosecondsPerSecond
  if res.2.allowed = 1 then
    (res.1,
     { allowed := true, limit := swl.bucketSize, remaining := (res.2.remaining).getD 0,
       resetTimeNanos := resetTimeNanos, retryAfterNanos := none })
  else
    (res.1,
     { allowed := false, limit := swl.bucketSize, remaining := 0,
       resetTimeNanos := resetTimeNanos,
       retryAfterNanos := some (max 0 (resetTimeNanos - timestampNanos)) })

/-- Folds the log engine's `isAllowed` over a list of caller timestamps. -/
def SlidingWindowLogRateLimiter.run (swl : SlidingWindowLogRateLimiter) :
    SlidingWindowLogState → List ℤ → SlidingWindowLogState × List RateLimitResponse
  | st, [] => (st, [])
  | st, t :: ts =>
    let step := swl.isAllowed st t
    let rest := swl.run step.1 ts
    (rest.1, step.2 :: rest.2)

/-! ## Sliding-window counter (`sliding_window_counter.go`) -/

/-- `SlidingWindowCounterConfig`, window duration in nanoseconds. -/
structure SlidingWindowCounterConfig where
  windowSizeNanos : ℤ
  bucketSize : ℤ
  keyPrefix : String
  ttlBufferSeconds : ℤ
  deriving Repr, DecidableEq

/-- The `SlidingWindowCounterRateLimiter` struct. -/
structure SlidingWindowCounterRateLimiter where
  windowSizeNanos : ℤ
  keyPrefix : String
  bucketSize : ℤ
  ttlBuffer : ℤ
  deriving Repr, DecidableEq

/-- `NewSlidingWindowCounterRateLimiter`. -/
def NewSlidingWindowCounterRateLimiter (config : SlidingWindowCounterConfig)
    (hasRedisClient : Bool) : Option SlidingWindowCounterRateLimiter :=
  if config.windowSizeNanos ≤ 0 ∨ config.bucketSize ≤ 0 ∨ hasRedisClient = false then
    none
  else
    let ttlBufferSeconds :=
      if config.ttlBufferSeconds ≤ 0 then DefaultTTLBufferSeconds else config.ttlBufferSeconds
    some { windowSizeNanos := config.windowSizeNanos
           keyPrefix := config.keyPrefix
           bucketSize := config.bucketSize
           ttlBuffer := ttlBufferSeconds }

/-- One of the two counter sub-keys: a `{count, window_start}` hash. -/
structure WindowEntry where
  count : ℤ
  windowStart : ℤ
  deriving Repr, DecidableEq

/-- Per-key state of the counter engine: the `:current` and `:previous`
hashes (absent = `none`) and the TTLs last set on them. -/
structure SlidingWindowCounterState where
  current : Option WindowEntry
  previous : Option WindowEntry
  currentTtlSeconds : Option ℤ
  previousTtlSeconds : Option ℤ
  deriving Repr, DecidableEq

/-- Both sub-keys absent. -/
def SlidingWindowCounterState.empty : SlidingWindowCounterState :=
  ⟨none, none, none, none⟩

/-- The script's count-recovery logic: read `:current`; adopt its count as
the current count when its stored window start matches, or as the previous
count when the window has rolled by exactly one width; when the previous
count is still zero, fall back to the `:previous` sub-key. -/
def swcReadCounts (state : SlidingWindowCounterState)
    (currentWindowStart previousWindowStart : ℤ) : ℤ × ℤ :=
  let fromCurrent : ℤ × ℤ :=
    match state.current with
    | some e =>
      if e.windowStart = currentWindowStart then (e.count, 0)
      else if e.windowStart = previousWindowStart then (0, e.count)
      else (0, 0)
    | none => (0, 0)
  let previousCount : ℤ :=
    if fromCurrent.2 = 0 then
      match state.previous with
      | some e => if e.windowStart = previousWindowStart then e.count else 0
      | none => 0
    else fromCurrent.2
  (fromCurrent.1, previousCount)

/-- Result array of the counter script: on deny
`{0, weighted_count, reset_time_nanos, current_count, previous_count}`, on
allow `{1, weighted_count+1, 0, current_count+1, previous_count, remaining}`. -/
structure SlidingWindowCounterScriptResult where
  allowed : ℤ
  weightedCount : ℤ
  resetTimeNanos : ℤ
  currentCount : ℤ
  previousCount : ℤ
  remaining : Option ℤ
  deriving Repr, DecidableEq

/-- One evaluation of the sliding-window-counter Lua script. -/
def slidingWindowCounterScript (currentWindowStart previousWindowStart bucketSize
    windowSizeNanos ttlSeconds : ℤ) (windowProgress : ℚ)
    (state : SlidingWindowCounterState) :
    SlidingWindowCounterState × SlidingWindowCounterScriptResult :=
  let counts := swcReadCounts state currentWindowStart previousWindowStart
  let currentCount := counts.1
  let previousCount := counts.2
  let previousWindowWeight : ℚ := 1 - windowProgress
  let weightedCount : ℤ := ⌊(currentCount : ℚ) + (previousCount : ℚ) * previousWindowWeight⌋
  if bucketSize ≤ weightedCount then
    (state,
     { allowed := 0, weightedCount := weightedCount,
       resetTimeNanos := currentWindowStart + windowSizeNanos,
       currentCount := currentCount, previousCount := previousCount, remaining := none })
  else
    let newCurrentCount := currentCount + 1
    ({ current := some ⟨newCurrentCount, currentWindowStart⟩,
       previous := some ⟨previousCount, previousWindowStart⟩,
       currentTtlSeconds := some ttlSeconds, previousTtlSeconds := some ttlSeconds },
     { allowed := 1, weightedCount := weightedCount + 1, resetTimeNanos := 0,
       currentCount := newCurrentCount, previousCount := previousCount,
       remaining := some (max 0 (bucketSize - weightedCount - 1)) })

/-- The counter engine's response: the shared fields plus the metadata the
engine attaches (`weighted_count`, `current_count`, `previous_count`,
`window_progress`). -/
structure SlidingWindowCounterResponse where
  allowed : Bool
  limit : ℤ
  remaining : ℤ
  resetTimeNanos : ℤ
  retryAfterNanos : Option ℤ
  weightedCount : ℤ
  currentCount : ℤ
  previousCount : ℤ
  windowProgress : ℚ
  deriving Repr, DecidableEq

/-- `currentWindowStart` as computed by the engine:
`(t / W) * W` in Go `int64` arithmetic. -/
def SlidingWindowCounterRateLimiter.currentWindowStart
    (swc : SlidingWindowCounterRateLimiter) (timestampNanos : ℤ) : ℤ :=
  goQuo timestampNanos swc.windowSizeNanos * swc.windowSizeNanos

/-- `windowProgress` as computed by the engine: the fraction of the current
window already elapsed, capped at 1. -/
def SlidingWindowCounterRateLimiter.windowProgress
    (swc : SlidingWindowCounterRateLimiter) (timestampNanos : ℤ) : ℚ :=
  let timeIntoWindow : ℤ := timestampNanos - swc.currentWindowStart timestampNanos
  let p : ℚ := (timeIntoWindow : ℚ) / (swc.windowSizeNanos : ℚ)
  if 1 < p then 1 else p

/-- `SlidingWindowCounterRateLimiter.calculateRetryAfter`: project the window
progress `p*` at which the weighted count first drops below the bucket size;
`int64(...)` casts are truncation toward zero. -/
def SlidingWindowCounterRateLimiter.calculateRetryAfter
    (swc : SlidingWindowCounterRateLimiter)
    (currentCount previousCount currentWindowStart currentTimestamp : ℤ) : ℤ :=
  if previousCount = 0 then
    (currentWindowStart + swc.windowSizeNanos) - currentTimestamp
  else
    let requiredWindowProgress : ℚ :=
      1 - ((swc.bucketSize - currentCount : ℤ) : ℚ) / (previousCount : ℚ)
    if 1 ≤ requiredWindowProgress then
      (currentWindowStart + swc.windowSizeNanos) - currentTimestamp
    else
      let futureTimestamp : ℤ :=
        currentWindowStart + ratTrunc (requiredWindowProgress * (swc.windowSizeNanos : ℚ))
      futureTimestamp - currentTimestamp

/-- `SlidingWindowCounterRateLimiter.IsAllowed`. -/
def SlidingWindowCounterRateLimiter.isAllowed (swc : SlidingWindowCounterRateLimiter)
    (state : SlidingWindowCounterState) (timestampNanos : ℤ) :
    SlidingWindowCounterState × SlidingWindowCounterResponse :=
  let currentWindowStart := swc.currentWindowStart timestampNanos
  let previousWindowStart := currentWindowStart - swc.windowSizeNanos
  let windowProgress := swc.windowProgress timestampNanos
  let ttlSeconds : ℤ := goQuo swc.windowSizeNanos NanosecondsPerSecond * 2 + swc.ttlBuffer
  let res := slidingWindowCounterScript currentWindowStart previousWindowStart
    swc.bucketSize swc.windowSizeNanos ttlSeconds windowProgress state
  let resetTimeNanos : ℤ :=
    if 0 < res.2.resetTimeNanos then res.2.resetTimeNanos
    else currentWindowStart + swc.windowSizeNanos
  if res.2.allowed = 1 then
    (res.1,
     { allowed := true, limit := swc.bucketSize, remaining := (res.2.remaining).getD 0,
       resetTimeNanos := resetTimeNanos, retryAfterNanos := none,
       weightedCount := res.2.weightedCount, currentCount := res.2.currentCount,
       previousCount := res.2.previousCount, windowProgress := windowProgress })
  else
    (res.1,
     { allowed := false, limit := swc.bucketSize, remaining := 0,
       resetTimeNanos := resetTimeNanos,
       retryAfterNanos := some (swc.calculateRetryAfter res.2.currentCount
         res.2.previousCount currentWindowStart timestampNanos),
       weightedCount := res.2.weightedCount, currentCount := res.2.currentCount,
       previousCount := res.2.previousCount, windowProgress := windowProgress })

/-! ## Metrics decorator (`metrics_decorator.go`) -/

/-- A call recorded against the metrics collector. -/
inductive MetricsEvent
  | decision (strategy : String) (allowed : Bool)
  | duration (strategy : String) (durationNanos : ℤ)
  deriving Repr, DecidableEq

/-- `MetricsDecorator.IsAllowed`, generic over the wrapped engine: the inner
call's outcome is a response of arbitrary type `α` (with its `Allowed` field
read by `allowedOf`) and an optional error; the measured wall-clock duration
is an opaque input.  Returns the events recorded, in order, together with the
value the wrapper returns to its caller. -/
def MetricsDecorator.isAllowed {α : Type} (strategy : String) (allowedOf : α → Bool)
    (innerResponse : α) (innerErr : Option String) (durationNanos : ℤ) :
    List MetricsEvent × (α × Option String) :=
  let durationEvents := [MetricsEvent.duration strategy durationNanos]
  let decisionEvents :=
    if innerErr = none then [MetricsEvent.decision strategy (allowedOf innerResponse)]
    else []
  (durationEvents ++ decisionEvents, (innerResponse, innerErr))

/-- `MetricsDecorator.Reset` delegates to the wrapped engine untouched. -/
def MetricsDecorator.reset {β : Type} (innerResult : β) : β := innerResult

/-! ## Derived views of the counter engine -/

/-- The `(current_count, previous_count)` pair the counter script recovers
for a given stored state and caller timestamp. -/
def SlidingWindowCounterRateLimiter.counts (swc : SlidingWindowCounterRateLimiter)
    (state : SlidingWindowCounterState) (t : ℤ) : ℤ × ℤ :=
  swcReadCounts state (swc.currentWindowStart t)
    (swc.currentWindowStart t - swc.windowSizeNanos)

/-- The weighted count the counter script computes for a given stored state
and caller timestamp. -/
def SlidingWindowCounterRateLimiter.weighted (swc : SlidingWindowCounterRateLimiter)
    (state : SlidingWindowCounterState) (t : ℤ) : ℤ :=
  ⌊((swc.counts state t).1 : ℚ) +
    ((swc.counts state t).2 : ℚ) * (1 - swc.windowProgress t)⌋

/-- The TTL (seconds) the counter script sets on both sub-keys. -/
def SlidingWindowCounterRateLimiter.scriptTtlSeconds
    (swc : SlidingWindowCounterRateLimiter) : ℤ :=
  goQuo swc.windowSizeNanos NanosecondsPerSecond * 2 + swc.ttlBuffer

theorem swc_isAllowed_deny (swc : SlidingWindowCounterRateLimiter)
    (state : SlidingWindowCounterState) (t : ℤ)
    (h : swc.bucketSize ≤ swc.weighted state t) :
    swc.isAllowed state t =
      (state,
       { allowed := false, limit := swc.bucketSize, remaining := 0,
         resetTimeNanos := swc.currentWindowStart t + swc.windowSizeNanos,
         retryAfterNanos := some (swc.calculateRetryAfter (swc.counts state t).1
           (swc.counts state t).2 (swc.currentWindowStart t) t),
         weightedCount := swc.weighted state t,
         currentCount := (swc.counts state t).1,
         previousCount := (swc.counts state t).2,
         windowProgress := swc.windowProgress t }) := by
  unfold SlidingWindowCounterRateLimiter.weighted SlidingWindowCounterRateLimiter.counts at h
  simp only [SlidingWindowCounterRateLimiter.isAllowed, slidingWindowCounterScript,
    SlidingWindowCounterRateLimiter.weighted, SlidingWindowCounterRateLimiter.counts,
    if_pos h]
  norm_num

theorem swc_isAllowed_allow (swc : SlidingWindowCounterRateLimiter)
    (state : SlidingWindowCounterState) (t : ℤ)
    (h : swc.weighted state t < swc.bucketSize) :
    swc.isAllowed state t =
      ({ current := some ⟨(swc.counts state t).1 + 1, swc.currentWindowStart t⟩,
         previous := some ⟨(swc.counts state t).2,
           swc.currentWindowStart t - swc.windowSizeNanos⟩,
         currentTtlSeconds := some swc.scriptTtlSeconds,
         previousTtlSeconds := some swc.scriptTtlSeconds },
       { allowed := true, limit := swc.bucketSize,
         remaining := max 0 (swc.bucketSize - swc.weighted state t - 1),
         resetTimeNanos := swc.currentWindowStart t + swc.windowSizeNanos,
         retryAfterNanos := none,
         weightedCount := swc.weighted state t + 1,
         currentCount := (swc.counts state t).1 + 1,
         previousCount := (swc.counts state t).2,
         windowProgress := swc.windowProgress t }) := by
  have h' : ¬ swc.bucketSize ≤ swc.weighted state t := by omega
  unfold SlidingWindowCounterRateLimiter.weighted SlidingWindowCounterRateLimiter.counts at h'
  simp only [SlidingWindowCounterRateLimiter.isAllowed, slidingWindowCounterScript,
    SlidingWindowCounterRateLimiter.weighted, SlidingWindowCounterRateLimiter.counts,
    SlidingWindowCounterRateLimiter.scriptTtlSeconds, if_neg h']
  norm_num

theorem swc_currentWindowStart_bounds (swc : SlidingWindowCounterRateLimiter)
    (t : ℤ) (ht : 0 ≤ t) (hW : 0 < swc.windowSizeNanos) :
    swc.currentWindowStart t ≤ t ∧
    t < swc.currentWindowStart t + swc.windowSizeNanos ∧
    swc.windowSizeNanos ∣ swc.currentWindowStart t := by
  unfold SlidingWindowCounterRateLimiter.currentWindowStart
  rw [goQuo_eq_ediv ht (le_of_lt hW)]
  refine ⟨Int.ediv_mul_le t (by omega), ?_, dvd_mul_left _ _⟩
  have h := Int.lt_ediv_add_one_mul_self t hW
  nlinarith [h]

theorem swc_windowProgress_eq (swc : SlidingWindowCounterRateLimiter)
    (t : ℤ) (ht : 0 ≤ t) (hW : 0 < swc.windowSizeNanos) :
    swc.windowProgress t =
      ((t - swc.currentWindowStart t : ℤ) : ℚ) / (swc.windowSizeNanos : ℚ) ∧
    0 ≤ swc.windowProgress t ∧ swc.windowProgress t < 1 := by
  obtain ⟨hle, hlt, -⟩ := swc_currentWindowStart_bounds swc t ht hW
  have hWq : (0 : ℚ) < (swc.windowSizeNanos : ℚ) := by exact_mod_cast hW
  have hnum : (0 : ℚ) ≤ ((t - swc.currentWindowStart t : ℤ) : ℚ) := by
    push_cast
    have : (swc.currentWindowStart t : ℚ) ≤ (t : ℚ) := by exact_mod_cast hle
    linarith
  have hlt' : ((t - swc.currentWindowStart t : ℤ) : ℚ) < (swc.windowSizeNanos : ℚ) := by
    push_cast
    have : (t : ℚ) < (swc.currentWindowStart t : ℚ) + (swc.windowSizeNanos : ℚ) := by
      exact_mod_cast hlt
    linarith
  have hp1 : ((t - swc.currentWindowStart t : ℤ) : ℚ) / (swc.windowSizeNanos : ℚ) < 1 :=
    (div_lt_one hWq).mpr hlt'
  have hp0 : (0 : ℚ) ≤ ((t - swc.currentWindowStart t : ℤ) : ℚ) / (swc.windowSizeNanos : ℚ) :=
    div_nonneg hnum (le_of_lt hWq)
  have hnotlt : ¬ (1 : ℚ) <
      ((t - swc.currentWindowStart t : ℤ) : ℚ) / (swc.windowSizeNanos : ℚ) := by linarith
  have hcap : swc.windowProgress t =
      ((t - swc.currentWindowStart t : ℤ) : ℚ) / (swc.windowSizeNanos : ℚ) := by
    simp only [SlidingWindowCounterRateLimiter.windowProgress]
    rw [if_neg hnotlt]
  exact ⟨hcap, by rw [hcap]; exact hp0, by rw [hcap]; exact hp1⟩

/-! ## Constructor lemmas -/

theorem newTokenBucket_eq (cfg : TokenBucketConfig) (b : Bool)
    (lim : TokenBucketRateLimiter) (h : NewTokenBucketRateLimiter cfg b = some lim) :
    lim = { bucketSize := cfg.bucketSize, refillRatePerSecond := cfg.refillRatePerSecond,
            keyPrefix := cfg.keyPrefix,
            ttlBuffer := if cfg.ttlBufferSeconds ≤ 0 then DefaultTTLBufferSeconds
              else cfg.ttlBufferSeconds } ∧
    0 < cfg.bucketSize ∧ 0 < cfg.refillRatePerSecond ∧ b = true := by
  unfold NewTokenBucketRateLimiter at h
  by_cases hcond : cfg.bucketSize ≤ 0 ∨ cfg.refillRatePerSecond ≤ 0 ∨ b = false
  · rw [if_pos hcond] at h
    exact absurd h (by simp)
  · rw [if_neg hcond] at h
    push_neg at hcond
    obtain ⟨h1, h2, h3⟩ := hcond
    injection h with h
    exact ⟨h.symm, by omega, by omega, by simpa using h3⟩

theorem newSlidingWindowLog_eq (cfg : SlidingWindowLogConfig) (b : Bool)
    (lim : SlidingWindowLogRateLimiter)
    (h : NewSlidingWindowLogRateLimiter cfg b = some lim) :
    lim = { windowSizeSeconds := goQuo cfg.windowSizeNanos NanosecondsPerSecond,
            keyPrefix := cfg.keyPrefix, bucketSize := cfg.bucketSize,
            ttlBuffer := if cfg.ttlBufferSeconds ≤ 0 then DefaultTTLBufferSeconds
              else cfg.ttlBufferSeconds } ∧
    0 < cfg.windowSizeNanos ∧ 0 < cfg.bucketSize ∧ b = true := by
  unfold NewSlidingWindowLogRateLimiter at h
  by_cases hcond : cfg.windowSizeNanos ≤ 0 ∨ cfg.bucketSize ≤ 0 ∨ b = false
  · rw [if_pos hcond] at h
    exact absurd h (by simp)
  · rw [if_neg hcond] at h
    push_neg at hcond
    obtain ⟨h1, h2, h3⟩ := hcond
    injection h with h
    exact ⟨h.symm, by omega, by omega, by simpa using h3⟩

theorem newSlidingWindowCounter_eq (cfg : SlidingWindowCounterConfig) (b : Bool)
    (lim : SlidingWindowCounterRateLimiter)
    (h : NewSlidingWindowCounterRateLimiter cfg b = some lim) :
    lim = { windowSizeNanos := cfg.windowSizeNanos,
            keyPrefix := cfg.keyPrefix, bucketSize := cfg.bucketSize,
            ttlBuffer := if cfg.ttlBufferSeconds ≤ 0 then DefaultTTLBufferSeconds
              else cfg.ttlBufferSeconds } ∧
    0 < cfg.windowSizeNanos ∧ 0 < cfg.bucketSize ∧ b = true := by
  unfold NewSlidingWindowCounterRateLimiter at h
  by_cases hcond : cfg.windowSizeNanos ≤ 0 ∨ cfg.bucketSize ≤ 0 ∨ b = false
  · rw [if_pos hcond] at h
    exact absurd h (by simp)
  · rw [if_neg hcond] at h
    push_neg at hcond
    obtain ⟨h1, h2, h3⟩ := hcond
    injection h with h
    exact ⟨h.symm, by omega, by omega, by simpa using h3⟩

theorem newTokenBucket_some_of (cfg : TokenBucketConfig) (b : Bool)
    (h1 : 0 < cfg.bucketSize) (h2 : 0 < cfg.refillRatePerSecond) (h3 : b = true) :
    (NewTokenBucketRateLimiter cfg b).isSome := by
  unfold NewTokenBucketRateLimiter
  rw [if_neg (by push_neg; exact ⟨by omega, by omega, by simp [h3]⟩)]
  rfl

theorem newSlidingWindowLog_some_of (cfg : SlidingWindowLogConfig) (b : Bool)
    (h1 : 0 < cfg.windowSizeNanos) (h2 : 0 < cfg.bucketSize) (h3 : b = true) :
    (NewSlidingWindowLogRateLimiter cfg b).isSome := by
  unfold NewSlidingWindowLogRateLimiter
  rw [if_neg (by push_neg; exact ⟨by omega, by omega, by simp [h3]⟩)]
  rfl

theorem newSlidingWindowCounter_some_of (cfg : SlidingWindowCounterConfig) (b : Bool)
    (h1 : 0 < cfg.windowSizeNanos) (h2 : 0 < cfg.bucketSize) (h3 : b = true) :
    (NewSlidingWindowCounterRateLimiter cfg b).isSome := by
  unfold NewSlidingWindowCounterRateLimiter
  rw [if_neg (by push_neg; exact ⟨by omega, by omega, by simp [h3]⟩)]
  rfl

/-- C8: each engine constructor fails with an invalid-configuration error
exactly when a required positive quantity (`bucket_size`,
`refill_rate_per_second`, `window_size`) is zero or negative or the store
client reference is missing; otherwise it succeeds, and the constructed
engine's `ttl_buffer_seconds` defaults to 60 when the supplied value is
absent (zero-valued) or non-positive. -/
theorem constructors_validate_configuration
    (tcfg : TokenBucketConfig) (lcfg : SlidingWindowLogConfig)
    (ccfg : SlidingWindowCounterConfig) (b₁ b₂ b₃ : Bool) :
    ((NewTokenBucketRateLimiter tcfg b₁).isSome ↔
      0 < tcfg.bucketSize ∧ 0 < tcfg.refillRatePerSecond ∧ b₁ = true)
  ∧ (∀ tb ∈ NewTokenBucketRateLimiter tcfg b₁,
      tb.ttlBuffer = if tcfg.ttlBufferSeconds ≤ 0 then DefaultTTLBufferSeconds
        else tcfg.ttlBufferSeconds)
  ∧ ((NewSlidingWindowLogRateLimiter lcfg b₂).isSome ↔
      0 < lcfg.windowSizeNanos ∧ 0 < lcfg.bucketSize ∧ b₂ = true)
  ∧ (∀ l ∈ NewSlidingWindowLogRateLimiter lcfg b₂,
      l.ttlBuffer = if lcfg.ttlBufferSeconds ≤ 0 then DefaultTTLBufferSeconds
        else lcfg.ttlBufferSeconds)
  ∧ ((NewSlidingWindowCounterRateLimiter ccfg b₃).isSome ↔
      0 < ccfg.windowSizeNanos ∧ 0 < ccfg.bucketSize ∧ b₃ = true)
  ∧ (∀ c ∈ NewSlidingWindowCounterRateLimiter ccfg b₃,
      c.ttlBuffer = if ccfg.ttlBufferSeconds ≤ 0 then DefaultTTLBufferSeconds
        else ccfg.ttlBufferSeconds) := by
  refine ⟨⟨?_, ?_⟩, ?_, ⟨?_, ?_⟩, ?_, ⟨?_, ?_⟩, ?_⟩
  · intro h
    obtain ⟨tb, htb⟩ := Option.isSome_iff_exists.mp h
    obtain ⟨_, h1, h2, h3⟩ := newTokenBucket_eq tcfg b₁ tb htb
    exact ⟨h1, h2, h3⟩
  · rintro ⟨h1, h2, h3⟩
    exact newTokenBucket_some_of tcfg b₁ h1 h2 h3
  · intro tb htb
    obtain ⟨heq, -, -, -⟩ := newTokenBucket_eq tcfg b₁ tb htb
    rw [heq]
  · intro h
    obtain ⟨l, hl⟩ := Option.isSome_iff_exists.mp h
    obtain ⟨_, h1, h2, h3⟩ := newSlidingWindowLog_eq lcfg b₂ l hl
    exact ⟨h1, h2, h3⟩
  · rintro ⟨h1, h2, h3⟩
    exact newSlidingWindowLog_some_of lcfg b₂ h1 h2 h3
  · intro l hl
    obtain ⟨heq, -, -, -⟩ := newSlidingWindowLog_eq lcfg b₂ l hl
    rw [heq]
  · intro h
    obtain ⟨c, hc⟩ := Option.isSome_iff_exists.mp h
    obtain ⟨_, h1, h2, h3⟩ := newSlidingWindowCounter_eq ccfg b₃ c hc
    exact ⟨h1, h2, h3⟩
  · rintro ⟨h1, h2, h3⟩
    exact newSlidingWindowCounter_some_of ccfg b₃ h1 h2 h3
  · intro c hc
    obtain ⟨heq, -, -, -⟩ := newSlidingWindowCounter_eq ccfg b₃ c hc
    rw [heq]

/-- Witness for C8: a concrete valid configuration per engine, each with a
zero (absent) TTL buffer that defaults to 60. -/
theorem constructors_validate_configuration_witness :
    ((NewTokenBucketRateLimiter ⟨3, 1, "tb", 0⟩ true).isSome ↔
      0 < (3 : ℤ) ∧ 0 < (1 : ℤ) ∧ true = true)
  ∧ (∀ tb ∈ NewTokenBucketRateLimiter ⟨3, 1, "tb", 0⟩ true,
      tb.ttlBuffer = if (0 : ℤ) ≤ 0 then DefaultTTLBufferSeconds else 0) := by
  have h := constructors_validate_configuration ⟨3, 1, "tb", 0⟩ ⟨1000000000, 3, "swl", 0⟩
    ⟨1000000000, 3, "swc", 0⟩ true true true
  exact ⟨h.1, h.2.1⟩

/-! ## Claims about the sliding-window counter -/

/-- C6: when the weighted count has reached the bucket size the counter
engine denies, returning the weighted count,
`reset_time_nanos = current_window_start + window_size`, and the recovered
current and previous counts, and performs no writes: the `:current` and
`:previous` sub-keys (counts, window starts, TTLs) are exactly as before the
call. -/
theorem swc_deny_leaves_state_unchanged (swc : SlidingWindowCounterRateLimiter)
    (state : SlidingWindowCounterState) (t : ℤ)
    (h : swc.bucketSize ≤ swc.weighted state t) :
    (swc.isAllowed state t).1 = state ∧
    (swc.isAllowed state t).2.allowed = false ∧
    (swc.isAllowed state t).2.weightedCount = swc.weighted state t ∧
    (swc.isAllowed state t).2.resetTimeNanos =
      swc.currentWindowStart t + swc.windowSizeNanos ∧
    (swc.isAllowed state t).2.currentCount = (swc.counts state t).1 ∧
    (swc.isAllowed state t).2.previousCount = (swc.counts state t).2 := by
  rw [swc_isAllowed_deny swc state t h]
  exact ⟨rfl, rfl, rfl, rfl, rfl, rfl⟩

/-- Witness for C6: one stored admission in the current 10-second window,
bucket size 1, probed mid-window. -/
theorem swc_deny_leaves_state_unchanged_witness :
    (SlidingWindowCounterRateLimiter.mk 10000000000 "swc" 1 60).bucketSize ≤
      (SlidingWindowCounterRateLimiter.mk 10000000000 "swc" 1 60).weighted
        ⟨some ⟨1, 0⟩, none, some 80, none⟩ 5000000000 ∧
    ((SlidingWindowCounterRateLimiter.mk 10000000000 "swc" 1 60).isAllowed
      ⟨some ⟨1, 0⟩, none, some 80, none⟩ 5000000000).1 =
      ⟨some ⟨1, 0⟩, none, some 80, none⟩ := by
  have hq : goQuo 5000000000 10000000000 = 0 := by decide
  have h : (SlidingWindowCounterRateLimiter.mk 10000000000 "swc" 1 60).bucketSize ≤
      (SlidingWindowCounterRateLimiter.mk 10000000000 "swc" 1 60).weighted
        ⟨some ⟨1, 0⟩, none, some 80, none⟩ 5000000000 := by
    simp only [SlidingWindowCounterRateLimiter.weighted,
      SlidingWindowCounterRateLimiter.counts, swcReadCounts,
      SlidingWindowCounterRateLimiter.currentWindowStart,
      SlidingWindowCounterRateLimiter.windowProgress, hq]
    norm_num
  exact ⟨h, (swc_deny_leaves_state_unchanged _ _ _ h).1⟩

/-- C5: after every allowed admission at time `t ≥ 0` the stored
`:current.window_start` is the largest multiple of `window_size` that is
`≤ t` (this holds in particular across window roll-overs, since the value
depends only on `t`), and the stored `:previous.window_start` is exactly one
window earlier. -/
theorem swc_windowStart_invariant (swc : SlidingWindowCounterRateLimiter)
    (hW : 0 < swc.windowSizeNanos) (state : SlidingWindowCounterState) (t : ℤ)
    (ht : 0 ≤ t) (hallow : (swc.isAllowed state t).2.allowed = true) :
    ∃ e p : WindowEntry,
      (swc.isAllowed state t).1.current = some e ∧
      (swc.isAllowed state t).1.previous = some p ∧
      e.windowStart = swc.currentWindowStart t ∧
      swc.windowSizeNanos ∣ e.windowStart ∧ e.windowStart ≤ t ∧
      (∀ m : ℤ, swc.windowSizeNanos ∣ m → m ≤ t → m ≤ e.windowStart) ∧
      p.windowStart = e.windowStart - swc.windowSizeNanos := by
  by_cases h : swc.bucketSize ≤ swc.weighted state t
  · rw [swc_isAllowed_deny swc state t h] at hallow
    simp at hallow
  · push_neg at h
    rw [swc_isAllowed_allow swc state t h]
    obtain ⟨hle, hlt, hdvd⟩ := swc_currentWindowStart_bounds swc t ht hW
    have hmax : ∀ m : ℤ, swc.windowSizeNanos ∣ m → m ≤ t →
        m ≤ swc.currentWindowStart t := by
      intro m hm hmt
      obtain ⟨k, hk⟩ := hm
      obtain ⟨j, hj⟩ := hdvd
      rw [hj] at hlt
      have hkt : swc.windowSizeNanos * k ≤ t := hk ▸ hmt
      have h1 : swc.windowSizeNanos * k < swc.windowSizeNanos * (j + 1) := by
        have hexp : swc.windowSizeNanos * (j + 1) = swc.windowSizeNanos * j +
          swc.windowSizeNanos := by ring
        linarith
      have h2 : k < j + 1 := lt_of_mul_lt_mul_left h1 (le_of_lt hW)
      have h3 : k ≤ j := by omega
      have h4 : swc.windowSizeNanos * k ≤ swc.windowSizeNanos * j :=
        mul_le_mul_of_nonneg_left h3 (le_of_lt hW)
      rw [hk, hj]
      exact h4
    exact ⟨_, _, rfl, rfl, rfl, hdvd, hle, hmax, rfl⟩

/-- Witness for C5: first admission of a fresh key mid-window. -/
theorem swc_windowStart_invariant_witness :
    (0 : ℤ) < 10000000000 ∧ (0 : ℤ) ≤ 5000000000 ∧
    ((SlidingWindowCounterRateLimiter.mk 10000000000 "swc" 2 60).isAllowed
      SlidingWindowCounterState.empty 5000000000).2.allowed = true ∧
    ∃ e p : WindowEntry,
      ((SlidingWindowCounterRateLimiter.mk 10000000000 "swc" 2 60).isAllowed
        SlidingWindowCounterState.empty 5000000000).1.current = some e ∧
      ((SlidingWindowCounterRateLimiter.mk 10000000000 "swc" 2 60).isAllowed
        SlidingWindowCounterState.empty 5000000000).1.previous = some p ∧
      e.windowStart = (SlidingWindowCounterRateLimiter.mk 10000000000 "swc" 2 60).currentWindowStart
        5000000000 ∧
      (SlidingWindowCounterRateLimiter.mk 10000000000 "swc" 2 60).windowSizeNanos ∣ e.windowStart ∧
      e.windowStart ≤ 5000000000 ∧
      (∀ m : ℤ, (SlidingWindowCounterRateLimiter.mk 10000000000 "swc" 2 60).windowSizeNanos ∣ m →
        m ≤ 5000000000 → m ≤ e.windowStart) ∧
      p.windowStart = e.windowStart -
        (SlidingWindowCounterRateLimiter.mk 10000000000 "swc" 2 60).windowSizeNanos := by
  have hq : goQuo 5000000000 10000000000 = 0 := by decide
  have hwt : (SlidingWindowCounterRateLimiter.mk 10000000000 "swc" 2 60).weighted
      SlidingWindowCounterState.empty 5000000000 < 2 := by
    simp only [SlidingWindowCounterRateLimiter.weighted,
      SlidingWindowCounterRateLimiter.counts, swcReadCounts,
      SlidingWindowCounterRateLimiter.currentWindowStart,
      SlidingWindowCounterRateLimiter.windowProgress, SlidingWindowCounterState.empty, hq]
    norm_num
  have hallow : ((SlidingWindowCounterRateLimiter.mk 10000000000 "swc" 2 60).isAllowed
      SlidingWindowCounterState.empty 5000000000).2.allowed = true := by
    rw [swc_isAllowed_allow _ _ _ hwt]
  exact ⟨by decide, by decide, hallow,
    swc_windowStart_invariant _ (by decide) _ _ (by decide) hallow⟩

/-- C1: on every denied counter admission whose recovered `previous_count`
is positive and whose projected progress `p* = 1 − (bucket_size −
current_count)/previous_count` is below 1, the engine-computed retry hint is
`(current_window_start + p*·window_size) − t`, computed in nanoseconds (the
projection is truncated to a whole nanosecond count by the `int64` cast),
and the returned retry hint is never negative. -/
theorem swc_retry_projection (swc : SlidingWindowCounterRateLimiter)
    (hW : 0 < swc.windowSizeNanos) (state : SlidingWindowCounterState) (t : ℤ)
    (ht : 0 ≤ t)
    (hdeny : (swc.isAllowed state t).2.allowed = false)
    (hprev : 0 < (swc.isAllowed state t).2.previousCount)
    (hp : (1 : ℚ) - ((swc.bucketSize - (swc.isAllowed state t).2.currentCount : ℤ) : ℚ) /
        ((swc.isAllowed state t).2.previousCount : ℚ) < 1) :
    (swc.isAllowed state t).2.retryAfterNanos =
      some ((swc.currentWindowStart t +
        ratTrunc (((1 : ℚ) -
          ((swc.bucketSize - (swc.isAllowed state t).2.currentCount : ℤ) : ℚ) /
          ((swc.isAllowed state t).2.previousCount : ℚ)) * (swc.windowSizeNanos : ℚ))) - t) ∧
    ∀ ra ∈ (swc.isAllowed state t).2.retryAfterNanos, 0 ≤ ra := by
  by_cases h : swc.bucketSize ≤ swc.weighted state t
  · simp only [swc_isAllowed_deny swc state t h] at hdeny hprev hp ⊢
    have hprevne : ¬ (swc.counts state t).2 = 0 := by omega
    have hnotge : ¬ (1 : ℚ) ≤
        1 - ((swc.bucketSize - (swc.counts state t).1 : ℤ) : ℚ) /
          ((swc.counts state t).2 : ℚ) := not_le.mpr hp
    simp only [SlidingWindowCounterRateLimiter.calculateRetryAfter, if_neg hprevne,
      if_neg hnotge]
    -- the nonnegativity argument
    obtain ⟨hprogeq, hprog0, hprog1⟩ := swc_windowProgress_eq swc t ht hW
    obtain ⟨hle, hlt, -⟩ := swc_currentWindowStart_bounds swc t ht hW
    have hwq : (swc.bucketSize : ℚ) ≤
        ((swc.counts state t).1 : ℚ) +
          ((swc.counts state t).2 : ℚ) * (1 - swc.windowProgress t) := by
      have := Int.le_floor.mp h
      simpa [SlidingWindowCounterRateLimiter.weighted] using this
    have hprevq : (0 : ℚ) < ((swc.counts state t).2 : ℚ) := by exact_mod_cast hprev
    have hWq : (0 : ℚ) < (swc.windowSizeNanos : ℚ) := by exact_mod_cast hW
    set pstar : ℚ :=
      1 - ((swc.bucketSize - (swc.counts state t).1 : ℤ) : ℚ) /
        ((swc.counts state t).2 : ℚ) with hpstar
    have hdivle : ((swc.bucketSize - (swc.counts state t).1 : ℤ) : ℚ) /
        ((swc.counts state t).2 : ℚ) ≤ 1 - swc.windowProgress t := by
      rw [div_le_iff₀ hprevq]
      push_cast
      nlinarith [hwq]
    have hple : swc.windowProgress t ≤ pstar := by
      rw [hpstar]
      linarith
    have hpstar0 : 0 ≤ pstar := le_trans hprog0 hple
    have hmul : ((t - swc.currentWindowStart t : ℤ) : ℚ) ≤
        pstar * (swc.windowSizeNanos : ℚ) := by
      have h1 : swc.windowProgress t * (swc.windowSizeNanos : ℚ) ≤
          pstar * (swc.windowSizeNanos : ℚ) :=
        mul_le_mul_of_nonneg_right hple (le_of_lt hWq)
      have h2 : swc.windowProgress t * (swc.windowSizeNanos : ℚ) =
          ((t - swc.currentWindowStart t : ℤ) : ℚ) := by
        rw [hprogeq]
        field_simp
      linarith
    have htr : ratTrunc (pstar * (swc.windowSizeNanos : ℚ)) =
        ⌊pstar * (swc.windowSizeNanos : ℚ)⌋ :=
      ratTrunc_of_nonneg (mul_nonneg hpstar0 (le_of_lt hWq))
    have hfl : t - swc.currentWindowStart t ≤ ⌊pstar * (swc.windowSizeNanos : ℚ)⌋ :=
      Int.le_floor.mpr hmul
    refine ⟨trivial, ?_⟩
    intro ra hra
    simp only [Option.mem_def, Option.some.injEq] at hra
    subst hra
    rw [htr]
    omega
  · push_neg at h
    rw [swc_isAllowed_allow swc state t h] at hdeny
    simp at hdeny

/-- Witness for C1: 4 admissions recorded in the previous 10-second window,
bucket size 2, probed at mid-window progress 1/2 (weighted count 2 ⟹ deny,
`p* = 1/2`, retry hint 0). -/
theorem swc_retry_projection_witness :
    ((SlidingWindowCounterRateLimiter.mk 10000000000 "swc" 2 60).isAllowed
      ⟨none, some ⟨4, -10000000000⟩, none, none⟩ 5000000000).2.retryAfterNanos =
      some 0 ∧
    ∀ ra ∈ ((SlidingWindowCounterRateLimiter.mk 10000000000 "swc" 2 60).isAllowed
      ⟨none, some ⟨4, -10000000000⟩, none, none⟩ 5000000000).2.retryAfterNanos,
      0 ≤ ra := by
  have hq : goQuo 5000000000 10000000000 = 0 := by decide
  have hcnt : (SlidingWindowCounterRateLimiter.mk 10000000000 "swc" 2 60).counts
      ⟨none, some ⟨4, -10000000000⟩, none, none⟩ 5000000000 = (0, 4) := by
    simp only [SlidingWindowCounterRateLimiter.counts, swcReadCounts,
      SlidingWindowCounterRateLimiter.currentWindowStart, hq]
    norm_num
  have hprog : (SlidingWindowCounterRateLimiter.mk 10000000000 "swc" 2 60).windowProgress
      5000000000 = 1/2 := by
    simp only [SlidingWindowCounterRateLimiter.windowProgress,
      SlidingWindowCounterRateLimiter.currentWindowStart, hq]
    norm_num
  have hwt : (SlidingWindowCounterRateLimiter.mk 10000000000 "swc" 2 60).bucketSize ≤
      (SlidingWindowCounterRateLimiter.mk 10000000000 "swc" 2 60).weighted
        ⟨none, some ⟨4, -10000000000⟩, none, none⟩ 5000000000 := by
    simp only [SlidingWindowCounterRateLimiter.weighted, hcnt, hprog]
    norm_num
  have hdeny : ((SlidingWindowCounterRateLimiter.mk 10000000000 "swc" 2 60).isAllowed
      ⟨none, some ⟨4, -10000000000⟩, none, none⟩ 5000000000).2.allowed = false := by
    rw [swc_isAllowed_deny _ _ _ hwt]
  have hprev : 0 < ((SlidingWindowCounterRateLimiter.mk 10000000000 "swc" 2 60).isAllowed
      ⟨none, some ⟨4, -10000000000⟩, none, none⟩ 5000000000).2.previousCount := by
    rw [swc_isAllowed_deny _ _ _ hwt]
    simp [hcnt]
  have hcur : ((SlidingWindowCounterRateLimiter.mk 10000000000 "swc" 2 60).isAllowed
      ⟨none, some ⟨4, -10000000000⟩, none, none⟩ 5000000000).2.currentCount = 0 := by
    rw [swc_isAllowed_deny _ _ _ hwt]
    simp [hcnt]
  have hprev4 : ((SlidingWindowCounterRateLimiter.mk 10000000000 "swc" 2 60).isAllowed
      ⟨none, some ⟨4, -10000000000⟩, none, none⟩ 5000000000).2.previousCount = 4 := by
    rw [swc_isAllowed_deny _ _ _ hwt]
    simp [hcnt]
  have hp : (1 : ℚ) -
      (((SlidingWindowCounterRateLimiter.mk 10000000000 "swc" 2 60).bucketSize -
        ((SlidingWindowCounterRateLimiter.mk 10000000000 "swc" 2 60).isAllowed
          ⟨none, some ⟨4, -10000000000⟩, none, none⟩ 5000000000).2.currentCount : ℤ) : ℚ) /
      (((SlidingWindowCounterRateLimiter.mk 10000000000 "swc" 2 60).isAllowed
        ⟨none, some ⟨4, -10000000000⟩, none, none⟩ 5000000000).2.previousCount : ℚ) < 1 := by
    rw [hcur, hprev4]
    norm_num
  have hmain := swc_retry_projection (SlidingWindowCounterRateLimiter.mk 10000000000 "swc" 2 60)
    (by decide) ⟨none, some ⟨4, -10000000000⟩, none, none⟩ 5000000000 (by decide)
    hdeny hprev hp
  refine ⟨?_, hmain.2⟩
  rw [hmain.1, hcur, hprev4]
  have hcws : (SlidingWindowCounterRateLimiter.mk 10000000000 "swc" 2 60).currentWindowStart
      5000000000 = 0 := by
    simp [SlidingWindowCounterRateLimiter.currentWindowStart, hq]
  rw [hcws]
  norm_num [ratTrunc]

/-! ## Claims about the sliding-window log -/

theorem swlScript_members (ws t B s ttl : ℤ) (state : SlidingWindowLogState) :
    ∀ m ∈ (slidingWindowLogScript ws t B s ttl state).1.members, ws < m ∨ m = t := by
  intro m hm
  simp only [slidingWindowLogScript] at hm
  by_cases hc : B ≤ ((List.filter (fun x => decide (ws < x)) state.members).length : ℤ)
  · rw [if_pos hc] at hm
    simp only [List.mem_filter, decide_eq_true_eq] at hm
    exact Or.inl hm.2
  · rw [if_neg hc] at hm
    simp only [List.mem_cons, List.mem_filter, decide_eq_true_eq] at hm
    rcases hm with hm | hm
    · exact Or.inr hm
    · exact Or.inl hm.2

theorem swl_isAllowed_state (swl : SlidingWindowLogRateLimiter)
    (state : SlidingWindowLogState) (t : ℤ) :
    (swl.isAllowed state t).1 =
      (slidingWindowLogScript (t - swl.windowSizeSeconds * NanosecondsPerSecond) t
        swl.bucketSize swl.windowSizeSeconds swl.ttlBuffer state).1 := by
  simp only [SlidingWindowLogRateLimiter.isAllowed]
  split <;> rfl

/-- C4: immediately after any `IsAllowed(key, t)` on a log engine built from
a (positive) configured window duration, no member stored for that key has
score ≤ t − window_size.  The engine prunes with the window truncated to
whole seconds, which only prunes harder than the configured duration
requires. -/
theorem swl_prunes_stale_members (cfg : SlidingWindowLogConfig) (b : Bool)
    (lim : SlidingWindowLogRateLimiter)
    (hlim : NewSlidingWindowLogRateLimiter cfg b = some lim)
    (state : SlidingWindowLogState) (t : ℤ) :
    ∀ m ∈ ((lim.isAllowed state t).1).members, ¬ m ≤ t - cfg.windowSizeNanos := by
  obtain ⟨heq, hW, hB, -⟩ := newSlidingWindowLog_eq cfg b lim hlim
  intro m hm hle
  have hsec : lim.windowSizeSeconds * NanosecondsPerSecond ≤ cfg.windowSizeNanos := by
    have hseq : lim.windowSizeSeconds = goQuo cfg.windowSizeNanos NanosecondsPerSecond := by
      rw [heq]
    rw [hseq, goQuo_eq_ediv (by omega) (by norm_num [NanosecondsPerSecond])]
    exact Int.ediv_mul_le _ (by norm_num [NanosecondsPerSecond])
  rw [swl_isAllowed_state] at hm
  rcases swlScript_members _ t _ _ _ state m hm with hgt | rfl
  · omega
  · omega

/-- Witness for C4: a 10-second window, one fresh and one stale member. -/
theorem swl_prunes_stale_members_witness :
    NewSlidingWindowLogRateLimiter ⟨10000000000, 3, "swl", 60⟩ true =
      some ⟨10, "swl", 3, 60⟩ ∧
    ∀ m ∈ (((SlidingWindowLogRateLimiter.mk 10 "swl" 3 60).isAllowed
      ⟨[0, 5000000000], some 70⟩ 12000000000).1).members,
      ¬ m ≤ 12000000000 - 10000000000 := by
  have hlim : NewSlidingWindowLogRateLimiter ⟨10000000000, 3, "swl", 60⟩ true =
      some ⟨10, "swl", 3, 60⟩ := by
    have hq : goQuo 10000000000 1000000000 = 10 := by decide
    simp [NewSlidingWindowLogRateLimiter, hq, DefaultTTLBufferSeconds, NanosecondsPerSecond]
  exact ⟨hlim, swl_prunes_stale_members ⟨10000000000, 3, "swl", 60⟩ true _ hlim
    ⟨[0, 5000000000], some 70⟩ 12000000000⟩

theorem swl_isAllowed_zero_window (lim : SlidingWindowLogRateLimiter)
    (hs : lim.windowSizeSeconds = 0) (hB : 0 < lim.bucketSize)
    (st : SlidingWindowLogState) (t : ℤ) (hmem : ∀ m ∈ st.members, m ≤ t) :
    (lim.isAllowed st t).2.allowed = true ∧ (lim.isAllowed st t).1.members = [t] := by
  have hpr : List.filter
      (fun m => decide (t - lim.windowSizeSeconds * NanosecondsPerSecond < m))
      st.members = [] := by
    rw [List.filter_eq_nil_iff]
    intro a ha
    have := hmem a ha
    simp only [decide_eq_true_eq, not_lt]
    rw [hs]
    omega
  have hcount : ¬ lim.bucketSize ≤ ((List.length ([] : List ℤ) : ℕ) : ℤ) := by
    simp only [List.length_nil, Nat.cast_zero]
    omega
  simp only [SlidingWindowLogRateLimiter.isAllowed, slidingWindowLogScript, hpr,
    if_neg hcount]
  norm_num

/-- C10 (implicit): the log constructor truncates the window to whole
seconds.  For every configured window strictly between 0 and 1 second the
constructor succeeds but the effective window stored for pruning and TTL is
0 seconds, so every strictly increasing sequence of admission calls is
entirely allowed, regardless of the configured bucket size. -/
theorem swl_subsecond_window_admits_everything (cfg : SlidingWindowLogConfig)
    (h0 : 0 < cfg.windowSizeNanos) (h1 : cfg.windowSizeNanos < NanosecondsPerSecond)
    (hB : 0 < cfg.bucketSize) (ts : List ℤ) (hts : List.Chain' (· < ·) ts) :
    ∃ lim, NewSlidingWindowLogRateLimiter cfg true = some lim ∧
      lim.windowSizeSeconds = 0 ∧
      ∀ r ∈ (lim.run SlidingWindowLogState.empty ts).2, r.allowed = true := by
  have hsome := newSlidingWindowLog_some_of cfg true h0 hB rfl
  obtain ⟨lim, hlim⟩ := Option.isSome_iff_exists.mp hsome
  obtain ⟨heq, -, -, -⟩ := newSlidingWindowLog_eq cfg true lim hlim
  have hs : lim.windowSizeSeconds = 0 := by
    have hseq : lim.windowSizeSeconds = goQuo cfg.windowSizeNanos NanosecondsPerSecond := by
      rw [heq]
    rw [hseq, goQuo_eq_ediv (by omega) (by norm_num [NanosecondsPerSecond])]
    exact Int.ediv_eq_zero_of_lt (by omega) h1
  have hB' : 0 < lim.bucketSize := by rw [heq]; exact hB
  refine ⟨lim, hlim, hs, ?_⟩
  suffices haux : ∀ (l : List ℤ) (st : SlidingWindowLogState), List.Chain' (· < ·) l →
      (∀ m ∈ st.members, ∀ t0 ∈ l.head?, m ≤ t0) →
      ∀ r ∈ (lim.run st l).2, r.allowed = true by
    exact haux ts SlidingWindowLogState.empty hts
      (by intro m hm; simp [SlidingWindowLogState.empty] at hm)
  intro l
  induction l with
  | nil =>
    intro st _ _ r hr
    simp [SlidingWindowLogRateLimiter.run] at hr
  | cons t l ih =>
    intro st hchain hmem r hr
    rw [List.chain'_cons'] at hchain
    obtain ⟨hhead, htail⟩ := hchain
    have hmem' : ∀ m ∈ st.members, m ≤ t := by
      intro m hm
      exact hmem m hm t rfl
    obtain ⟨hall, hmembers⟩ := swl_isAllowed_zero_window lim hs hB' st t hmem'
    simp only [SlidingWindowLogRateLimiter.run] at hr
    rcases List.mem_cons.mp hr with hr | hr
    · rw [hr]
      exact hall
    · refine ih (lim.isAllowed st t).1 htail ?_ r hr
      intro m hm t0 ht0
      rw [hmembers] at hm
      simp only [List.mem_singleton] at hm
      subst hm
      exact le_of_lt (hhead t0 ht0)

/-- Witness for C10: a 500 ms window, bucket size 1, three strictly
increasing admissions. -/
theorem swl_subsecond_window_admits_everything_witness :
    ∃ lim, NewSlidingWindowLogRateLimiter ⟨500000000, 1, "swl", 60⟩ true = some lim ∧
      lim.windowSizeSeconds = 0 ∧
      ∀ r ∈ (lim.run SlidingWindowLogState.empty [0, 1, 2]).2, r.allowed = true :=
  swl_subsecond_window_admits_everything ⟨500000000, 1, "swl", 60⟩ (by decide)
    (by decide) (by decide) [0, 1, 2]
    (by norm_num [List.chain'_cons, List.chain'_singleton])

/-! ## Claims about the token bucket -/

theorem tbRefilledTokens_some (B rate t : ℤ) (e : TokenBucketEntry) :
    tbRefilledTokens B rate t (some e) =
      min (B : ℚ) (e.tokens + ((t - e.lastRefillTimeNanos : ℤ) : ℚ) /
        (NanosecondsPerSecond : ℚ) * (rate : ℚ)) := rfl

theorem tbRefilledTokens_none (B rate t : ℤ) :
    tbRefilledTokens B rate t none =
      min (B : ℚ) ((B : ℚ) + ((t - t : ℤ) : ℚ) /
        (NanosecondsPerSecond : ℚ) * (rate : ℚ)) := rfl

theorem tokenBucket_isAllowed_deny_spec (tb : TokenBucketRateLimiter)
    (st : Option TokenBucketEntry) (t : ℤ)
    (h : tbRefilledTokens tb.bucketSize tb.refillRatePerSecond t st < 1) :
    tb.isAllowed st t =
      (some { tokens := tbRefilledTokens tb.bucketSize tb.refillRatePerSecond t st,
              lastRefillTimeNanos := t,
              ttlSeconds := max (MinimumTTLSeconds : ℚ)
                ((tb.bucketSize : ℚ) / (tb.refillRatePerSecond : ℚ) + (tb.ttlBuffer : ℚ)) },
       { allowed := false, limit := tb.bucketSize, remaining := 0,
         resetTimeNanos := ratTrunc ((t : ℚ) +
           (1 - tbRefilledTokens tb.bucketSize tb.refillRatePerSecond t st) /
             (tb.refillRatePerSecond : ℚ) * (NanosecondsPerSecond : ℚ)),
         retryAfterNanos := some (ratTrunc ((t : ℚ) +
           (1 - tbRefilledTokens tb.bucketSize tb.refillRatePerSecond t st) /
             (tb.refillRatePerSecond : ℚ) * (NanosecondsPerSecond : ℚ)) - t) }) := by
  simp only [TokenBucketRateLimiter.isAllowed, tokenBucketScript, if_pos h]
  rw [if_neg (by norm_num [ratTrunc] : ¬ ratTrunc (0 : ℚ) = 1)]

theorem tokenBucket_isAllowed_allow_spec (tb : TokenBucketRateLimiter)
    (st : Option TokenBucketEntry) (t : ℤ)
    (h : ¬ tbRefilledTokens tb.bucketSize tb.refillRatePerSecond t st < 1) :
    tb.isAllowed st t =
      (some { tokens := tbRefilledTokens tb.bucketSize tb.refillRatePerSecond t st - 1,
              lastRefillTimeNanos := t,
              ttlSeconds := max (MinimumTTLSeconds : ℚ)
                ((tb.bucketSize : ℚ) / (tb.refillRatePerSecond : ℚ) + (tb.ttlBuffer : ℚ)) },
       { allowed := true, limit := tb.bucketSize,
         remaining := ratTrunc
           (tbRefilledTokens tb.bucketSize tb.refillRatePerSecond t st - 1),
         resetTimeNanos := ratTrunc ((t : ℚ) +
           ((tb.bucketSize : ℚ) -
             (tbRefilledTokens tb.bucketSize tb.refillRatePerSecond t st - 1)) /
             (tb.refillRatePerSecond : ℚ) * (NanosecondsPerSecond : ℚ)),
         retryAfterNanos := none }) := by
  simp only [TokenBucketRateLimiter.isAllowed, tokenBucketScript, if_neg h]
  rw [if_pos (by norm_num [ratTrunc] : ratTrunc (1 : ℚ) = 1)]

theorem tbRefilledTokens_bounds (B rate t : ℤ) (hB : 0 < B) (hr : 0 < rate)
    (st : Option TokenBucketEntry)
    (hst : ∀ e ∈ st, 0 ≤ e.tokens ∧ e.tokens ≤ (B : ℚ) ∧ e.lastRefillTimeNanos ≤ t) :
    0 ≤ tbRefilledTokens B rate t st ∧ tbRefilledTokens B rate t st ≤ (B : ℚ) := by
  have hBq : (0 : ℚ) < (B : ℚ) := by exact_mod_cast hB
  have hrq : (0 : ℚ) < (rate : ℚ) := by exact_mod_cast hr
  have h9 : (0 : ℚ) < (NanosecondsPerSecond : ℚ) := by norm_num [NanosecondsPerSecond]
  cases st with
  | none =>
    rw [tbRefilledTokens_none]
    simp only [sub_self, Int.cast_zero, zero_div, zero_mul, add_zero, min_self]
    exact ⟨le_of_lt hBq, le_refl _⟩
  | some e =>
    obtain ⟨h0, h1, h2⟩ := hst e rfl
    rw [tbRefilledTokens_some]
    have helapsed : (0 : ℚ) ≤
        ((t - e.lastRefillTimeNanos : ℤ) : ℚ) / (NanosecondsPerSecond : ℚ) *
          (rate : ℚ) := by
      apply mul_nonneg _ (le_of_lt hrq)
      apply div_nonneg _ (le_of_lt h9)
      exact_mod_cast sub_nonneg.mpr h2
    exact ⟨le_min (le_of_lt hBq) (by linarith), min_le_left _ _⟩

theorem tokenBucketScript_bounds (B rate t ttl : ℤ) (hB : 0 < B) (hr : 0 < rate)
    (st : Option TokenBucketEntry)
    (hst : ∀ e ∈ st, 0 ≤ e.tokens ∧ e.tokens ≤ (B : ℚ) ∧ e.lastRefillTimeNanos ≤ t) :
    0 ≤ (tokenBucketScript B rate t ttl st).1.tokens ∧
    (tokenBucketScript B rate t ttl st).1.tokens ≤ (B : ℚ) ∧
    (tokenBucketScript B rate t ttl st).1.lastRefillTimeNanos = t := by
  obtain ⟨h0, h1⟩ := tbRefilledTokens_bounds B rate t hB hr st hst
  simp only [tokenBucketScript]
  split
  · exact ⟨h0, h1, rfl⟩
  · next h =>
    push_neg at h
    exact ⟨by linarith, by linarith, rfl⟩

theorem tokenBucket_isAllowed_state (tb : TokenBucketRateLimiter)
    (st : Option TokenBucketEntry) (t : ℤ) :
    (tb.isAllowed st t).1 =
      some (tokenBucketScript tb.bucketSize tb.refillRatePerSecond t tb.ttlBuffer st).1 := by
  simp only [TokenBucketRateLimiter.isAllowed]
  split <;> rfl

theorem tokenBucket_run_bounds (tb : TokenBucketRateLimiter) (hB : 0 < tb.bucketSize)
    (hr : 0 < tb.refillRatePerSecond) :
    ∀ (ts : List ℤ), List.Chain' (· ≤ ·) ts → ∀ (st : Option TokenBucketEntry),
      (∀ e ∈ st, 0 ≤ e.tokens ∧ e.tokens ≤ (tb.bucketSize : ℚ) ∧
        ∀ t0 ∈ ts.head?, e.lastRefillTimeNanos ≤ t0) →
      ∀ e ∈ (tb.run st ts).1, 0 ≤ e.tokens ∧ e.tokens ≤ (tb.bucketSize : ℚ)
  | [], _, st, hst, e, he => ⟨(hst e he).1, (hst e he).2.1⟩
  | t :: ts, hchain, st, hst, e, he => by
    rw [List.chain'_cons'] at hchain
    obtain ⟨hhead, htail⟩ := hchain
    have hb := tokenBucketScript_bounds tb.bucketSize tb.refillRatePerSecond t tb.ttlBuffer
      hB hr st (by
        intro e' he'
        obtain ⟨x, y, z⟩ := hst e' he'
        exact ⟨x, y, z t rfl⟩)
    simp only [TokenBucketRateLimiter.run] at he
    rw [tokenBucket_isAllowed_state] at he
    refine tokenBucket_run_bounds tb hB hr ts htail _ ?_ e he
    intro e' he'
    simp only [Option.mem_def, Option.some.injEq] at he'
    subst he'
    exact ⟨hb.1, hb.2.1, by
      intro t0 ht0
      rw [hb.2.2]
      exact hhead t0 ht0⟩

/-- C2 (amended): for a token-bucket engine built by the constructor, after
any sequence of admissions against one key whose caller-supplied timestamps
are non-decreasing, the stored token value satisfies
`0 ≤ tokens ≤ bucket_size`.  (With arbitrary — non-monotone — timestamps the
lower bound fails; see the counterexample.) -/
theorem tokenBucket_capacity_cap (cfg : TokenBucketConfig) (b : Bool)
    (lim : TokenBucketRateLimiter) (hlim : NewTokenBucketRateLimiter cfg b = some lim)
    (ts : List ℤ) (hts : List.Chain' (· ≤ ·) ts) :
    ∀ e ∈ (lim.run none ts).1, 0 ≤ e.tokens ∧ e.tokens ≤ (lim.bucketSize : ℚ) := by
  obtain ⟨heq, hB, hr, -⟩ := newTokenBucket_eq cfg b lim hlim
  have hB' : 0 < lim.bucketSize := by rw [heq]; exact hB
  have hr' : 0 < lim.refillRatePerSecond := by rw [heq]; exact hr
  exact tokenBucket_run_bounds lim hB' hr' ts hts none (by intro e he; simp at he)

/-- Witness for C2: bucket size 3, refill 1/s, two calls one second apart. -/
theorem tokenBucket_capacity_cap_witness :
    NewTokenBucketRateLimiter ⟨3, 1, "tb", 60⟩ true = some ⟨3, 1, "tb", 60⟩ ∧
    ∀ e ∈ ((TokenBucketRateLimiter.mk 3 1 "tb" 60).run none [0, 1000000000]).1,
      0 ≤ e.tokens ∧ e.tokens ≤ ((TokenBucketRateLimiter.mk 3 1 "tb" 60).bucketSize : ℚ) := by
  have hlim : NewTokenBucketRateLimiter ⟨3, 1, "tb", 60⟩ true = some ⟨3, 1, "tb", 60⟩ := by
    simp [NewTokenBucketRateLimiter]
  exact ⟨hlim, tokenBucket_capacity_cap ⟨3, 1, "tb", 60⟩ true _ hlim [0, 1000000000]
    (by norm_num [List.chain'_cons, List.chain'_singleton])⟩

/-- Counterexample to C2 as stated: with non-monotone caller timestamps the
stored token value goes negative.  Bucket size 3, refill 1/s; an admission at
t = 10 s (leaving 2 tokens) followed by one at t = 0 applies a refill of
−10 tokens and persists tokens = −8. -/
theorem tokenBucket_capacity_cap_counterexample :
    NewTokenBucketRateLimiter ⟨3, 1, "tb", 60⟩ true = some ⟨3, 1, "tb", 60⟩ ∧
    ∃ e, ((TokenBucketRateLimiter.mk 3 1 "tb" 60).run none [10000000000, 0]).1 = some e ∧
      e.tokens = -8 ∧ e.tokens < 0 := by
  refine ⟨by simp [NewTokenBucketRateLimiter], ⟨-8, 0, 63⟩, ?_, by norm_num, by norm_num⟩
  norm_num [TokenBucketRateLimiter.run, TokenBucketRateLimiter.isAllowed, tokenBucketScript,
    tbRefilledTokens, ratTrunc, NanosecondsPerSecond, MinimumTTLSeconds]

/-- C3 (amended): on a deny at time `t ≥ 0` with refilled tokens `x < 1`,
the response has `allowed = false`, `remaining = 0`,
`reset_time = t + ⌊(1−x)/refill_rate · 1e9⌋` nanoseconds (the exact instant
truncated to whole nanoseconds by the store's integer coercion) and
`retry_after = reset_time − t`; a subsequent call at
`t + ⌈(1−x)/refill_rate · 1e9⌉` — which equals `t + retry_after` exactly
when the division leaves no remainder — is allowed.  (At `t + retry_after`
itself the bucket can still be a fraction of a nanosecond short of one
token; see the counterexample.) -/
theorem tokenBucket_deny_mapping (tb : TokenBucketRateLimiter)
    (hB : 1 ≤ tb.bucketSize) (hr : 0 < tb.refillRatePerSecond)
    (st : Option TokenBucketEntry) (t : ℤ) (ht : 0 ≤ t)
    (hx : tbRefilledTokens tb.bucketSize tb.refillRatePerSecond t st < 1) :
    ((tb.isAllowed st t).2).allowed = false ∧
    ((tb.isAllowed st t).2).remaining = 0 ∧
    ((tb.isAllowed st t).2).resetTimeNanos =
      t + ⌊(1 - tbRefilledTokens tb.bucketSize tb.refillRatePerSecond t st) /
        (tb.refillRatePerSecond : ℚ) * (NanosecondsPerSecond : ℚ)⌋ ∧
    ((tb.isAllowed st t).2).retryAfterNanos =
      some (((tb.isAllowed st t).2).resetTimeNanos - t) ∧
    ((tb.isAllowed ((tb.isAllowed st t).1)
      (t + ⌈(1 - tbRefilledTokens tb.bucketSize tb.refillRatePerSecond t st) /
        (tb.refillRatePerSecond : ℚ) * (NanosecondsPerSecond : ℚ)⌉)).2).allowed = true := by
  have hrq : (0 : ℚ) < (tb.refillRatePerSecond : ℚ) := by exact_mod_cast hr
  have hBq : (1 : ℚ) ≤ (tb.bucketSize : ℚ) := by exact_mod_cast hB
  have h9 : (0 : ℚ) < (NanosecondsPerSecond : ℚ) := by norm_num [NanosecondsPerSecond]
  set x : ℚ := tbRefilledTokens tb.bucketSize tb.refillRatePerSecond t st with hxdef
  set y : ℚ := (1 - x) / (tb.refillRatePerSecond : ℚ) * (NanosecondsPerSecond : ℚ)
    with hydef
  have hy0 : 0 ≤ y := by
    rw [hydef]
    apply mul_nonneg _ (le_of_lt h9)
    apply div_nonneg _ (le_of_lt hrq)
    linarith
  have hreset : ratTrunc ((t : ℚ) + y) = t + ⌊y⌋ := by
    have htq : (0 : ℚ) ≤ (t : ℚ) := by exact_mod_cast ht
    rw [ratTrunc_of_nonneg (by linarith), Int.floor_int_add]
  have hfirst := tokenBucket_isAllowed_deny_spec tb st t hx
  -- the second call, one whole nanosecond past the exact refill instant
  have helapsed : ((t + ⌈y⌉ - t : ℤ) : ℚ) = (⌈y⌉ : ℚ) := by
    push_cast
    ring
  have hfull : ¬ tbRefilledTokens tb.bucketSize tb.refillRatePerSecond (t + ⌈y⌉)
      (some { tokens := x, lastRefillTimeNanos := t,
              ttlSeconds := max (MinimumTTLSeconds : ℚ)
                ((tb.bucketSize : ℚ) / (tb.refillRatePerSecond : ℚ) + (tb.ttlBuffer : ℚ)) }) <
      1 := by
    rw [tbRefilledTokens_some]
    push_neg
    refine le_min hBq ?_
    have hceil : y ≤ (⌈y⌉ : ℚ) := Int.le_ceil y
    have hexact : y / (NanosecondsPerSecond : ℚ) * (tb.refillRatePerSecond : ℚ) = 1 - x := by
      rw [hydef]
      field_simp
      ring
    have hmono : y / (NanosecondsPerSecond : ℚ) * (tb.refillRatePerSecond : ℚ) ≤
        (⌈y⌉ : ℚ) / (NanosecondsPerSecond : ℚ) * (tb.refillRatePerSecond : ℚ) := by
      apply mul_le_mul_of_nonneg_right _ (le_of_lt hrq)
      apply div_le_div_of_nonneg_right hceil (le_of_lt h9)
    simp only [helapsed]
    linarith [hexact ▸ hmono]
  refine ⟨?_, ?_, ?_, ?_, ?_⟩
  · rw [hfirst]
  · rw [hfirst]
  · rw [hfirst]
    exact hreset
  · rw [hfirst]
  · rw [hfirst]
    rw [tokenBucket_isAllowed_allow_spec tb _ (t + ⌈y⌉) hfull]

/-- Witness for C3 (amended): bucket 1, refill 3/s, empty bucket denied at
t = 0; `retry_after = ⌊1e9/3⌋ = 333333333 ns` and the call one nanosecond
later (at the ceiling, 333333334) is allowed. -/
theorem tokenBucket_deny_mapping_witness :
    ((TokenBucketRateLimiter.mk 1 3 "tb" 60).isAllowed
      (some ⟨0, 0, 60⟩) 0).2.allowed = false ∧
    ((TokenBucketRateLimiter.mk 1 3 "tb" 60).isAllowed
      (some ⟨0, 0, 60⟩) 0).2.retryAfterNanos = some 333333333 ∧
    ((TokenBucketRateLimiter.mk 1 3 "tb" 60).isAllowed
      (((TokenBucketRateLimiter.mk 1 3 "tb" 60).isAllowed (some ⟨0, 0, 60⟩) 0).1)
      333333334).2.allowed = true := by
  have h := tokenBucket_deny_mapping (TokenBucketRateLimiter.mk 1 3 "tb" 60)
    (by norm_num) (by norm_num) (some ⟨0, 0, 60⟩) 0 (by norm_num)
    (by norm_num [tbRefilledTokens_some, NanosecondsPerSecond])
  refine ⟨h.1, ?_, ?_⟩
  · norm_num [TokenBucketRateLimiter.isAllowed, tokenBucketScript, tbRefilledTokens,
      ratTrunc, NanosecondsPerSecond, MinimumTTLSeconds]
  · norm_num [TokenBucketRateLimiter.isAllowed, tokenBucketScript, tbRefilledTokens,
      ratTrunc, NanosecondsPerSecond, MinimumTTLSeconds]

/-- Counterexample to C3 as stated: bucket 1, refill 3 tokens/s.  The second
call (empty bucket, t = 0) is denied with `retry_after = 333333333 ns`
(`(1/3) s` truncated); the follow-up call exactly at `t + retry_after` holds
only `0.999999999` tokens and is denied again, where the claim promises an
allow. -/
theorem tokenBucket_retry_requeue_counterexample :
    NewTokenBucketRateLimiter ⟨1, 3, "tb", 60⟩ true = some ⟨1, 3, "tb", 60⟩ ∧
    ((TokenBucketRateLimiter.mk 1 3 "tb" 60).run none [0, 0, 333333333]).2.map
      (fun r => r.allowed) = [true, false, false] ∧
    ((TokenBucketRateLimiter.mk 1 3 "tb" 60).run none [0, 0, 333333333]).2.map
      (fun r => r.retryAfterNanos) = [none, some 333333333, some 0] := by
  refine ⟨by simp [NewTokenBucketRateLimiter], ?_, ?_⟩ <;>
  norm_num [TokenBucketRateLimiter.run, TokenBucketRateLimiter.isAllowed, tokenBucketScript,
    tbRefilledTokens, ratTrunc, NanosecondsPerSecond, MinimumTTLSeconds]

/-! ## Claim C7: monotone remaining within a steady window -/

theorem tbRefilledTokens_le (B rate t : ℤ) (st : Option TokenBucketEntry) :
    tbRefilledTokens B rate t st ≤ (B : ℚ) := by
  simp only [tbRefilledTokens]
  exact min_le_left _ _

theorem swl_isAllowed_deny_allowed (swl : SlidingWindowLogRateLimiter)
    (st : SlidingWindowLogState) (t : ℤ)
    (h : swl.bucketSize ≤ ((List.filter
      (fun m => decide (t - swl.windowSizeSeconds * NanosecondsPerSecond < m))
      st.members).length : ℤ)) :
    (swl.isAllowed st t).2.allowed = false := by
  simp only [SlidingWindowLogRateLimiter.isAllowed, slidingWindowLogScript, if_pos h]
  norm_num

theorem swl_isAllowed_allow_spec (swl : SlidingWindowLogRateLimiter)
    (st : SlidingWindowLogState) (t : ℤ)
    (h : ¬ swl.bucketSize ≤ ((List.filter
      (fun m => decide (t - swl.windowSizeSeconds * NanosecondsPerSecond < m))
      st.members).length : ℤ)) :
    swl.isAllowed st t =
      (⟨t :: List.filter
          (fun m => decide (t - swl.windowSizeSeconds * NanosecondsPerSecond < m))
          st.members,
        some (swl.windowSizeSeconds + swl.ttlBuffer)⟩,
       { allowed := true, limit := swl.bucketSize,
         remaining := swl.bucketSize - ((List.filter
           (fun m => decide (t - swl.windowSizeSeconds * NanosecondsPerSecond < m))
           st.members).length : ℤ) - 1,
         resetTimeNanos := t + swl.windowSizeSeconds * NanosecondsPerSecond,
         retryAfterNanos := none }) := by
  simp only [SlidingWindowLogRateLimiter.isAllowed, slidingWindowLogScript, if_neg h]
  norm_num [ratTrunc]

theorem list_filter_idem {α : Type} (p : α → Bool) (l : List α) :
    (l.filter p).filter p = l.filter p := by
  rw [List.filter_filter]
  simp

/-- C7 (amended): for each of the three engines, two consecutive allowed
calls against the same key with the same timestamp carry strictly decreasing
`remaining` values — so with a fixed timestamp repeated, successive allows
decrease `remaining` until a deny occurs.  For the sliding-window log this
requires the engine's truncated window (whole seconds) to be positive;
with a sub-second configured window the truncated window is 0 and
`remaining` stays constant (see the counterexample). -/
theorem consecutive_allows_decrease_remaining
    (tb : TokenBucketRateLimiter) (tst : Option TokenBucketEntry) (t₁ : ℤ)
    (swl : SlidingWindowLogRateLimiter) (hswl : 0 < swl.windowSizeSeconds)
    (lst : SlidingWindowLogState) (t₂ : ℤ)
    (swc : SlidingWindowCounterRateLimiter) (cst : SlidingWindowCounterState) (t₃ : ℤ) :
    ((tb.isAllowed tst t₁).2.allowed = true →
      (tb.isAllowed (tb.isAllowed tst t₁).1 t₁).2.allowed = true →
      (tb.isAllowed (tb.isAllowed tst t₁).1 t₁).2.remaining <
        (tb.isAllowed tst t₁).2.remaining)
  ∧ ((swl.isAllowed lst t₂).2.allowed = true →
      (swl.isAllowed (swl.isAllowed lst t₂).1 t₂).2.allowed = true →
      (swl.isAllowed (swl.isAllowed lst t₂).1 t₂).2.remaining <
        (swl.isAllowed lst t₂).2.remaining)
  ∧ ((swc.isAllowed cst t₃).2.allowed = true →
      (swc.isAllowed (swc.isAllowed cst t₃).1 t₃).2.allowed = true →
      (swc.isAllowed (swc.isAllowed cst t₃).1 t₃).2.remaining <
        (swc.isAllowed cst t₃).2.remaining) := by
  refine ⟨?_, ?_, ?_⟩
  -- token bucket
  · intro h1 h2
    by_cases hx1 : tbRefilledTokens tb.bucketSize tb.refillRatePerSecond t₁ tst < 1
    · simp [tokenBucket_isAllowed_deny_spec tb tst t₁ hx1] at h1
    · have hxB := tbRefilledTokens_le tb.bucketSize tb.refillRatePerSecond t₁ tst
      push_neg at hx1
      simp only [tokenBucket_isAllowed_allow_spec tb tst t₁ (not_lt.mpr hx1)] at h2 ⊢
      have hx2 : tbRefilledTokens tb.bucketSize tb.refillRatePerSecond t₁
          (some { tokens := tbRefilledTokens tb.bucketSize tb.refillRatePerSecond t₁ tst - 1,
                  lastRefillTimeNanos := t₁,
                  ttlSeconds := max (MinimumTTLSeconds : ℚ)
                    ((tb.bucketSize : ℚ) / (tb.refillRatePerSecond : ℚ) +
                      (tb.ttlBuffer : ℚ)) }) =
          tbRefilledTokens tb.bucketSize tb.refillRatePerSecond t₁ tst - 1 := by
        rw [tbRefilledTokens_some]
        simp only [sub_self, Int.cast_zero, zero_div, zero_mul, add_zero]
        exact min_eq_right (by linarith)
      by_cases hy : tbRefilledTokens tb.bucketSize tb.refillRatePerSecond t₁ tst - 1 < 1
      · simp [tokenBucket_isAllowed_deny_spec tb _ t₁ (hx2 ▸ hy)] at h2
      · simp only [tokenBucket_isAllowed_allow_spec tb _ t₁ (hx2 ▸ hy), hx2]
        push_neg at hy
        have e1 : ratTrunc (tbRefilledTokens tb.bucketSize tb.refillRatePerSecond t₁ tst - 1)
            = ⌊tbRefilledTokens tb.bucketSize tb.refillRatePerSecond t₁ tst - 1⌋ :=
          ratTrunc_of_nonneg (by linarith)
        have e2 : ratTrunc (tbRefilledTokens tb.bucketSize tb.refillRatePerSecond t₁ tst
              - 1 - 1)
            = ⌊tbRefilledTokens tb.bucketSize tb.refillRatePerSecond t₁ tst - 1 - 1⌋ :=
          ratTrunc_of_nonneg (by linarith)
        rw [e1, e2]
        have hstep : ⌊tbRefilledTokens tb.bucketSize tb.refillRatePerSecond t₁ tst
              - 1 - 1⌋
            = ⌊tbRefilledTokens tb.bucketSize tb.refillRatePerSecond t₁ tst - 1⌋ - 1 := by
          rw [show tbRefilledTokens tb.bucketSize tb.refillRatePerSecond t₁ tst - 1 - 1 =
            tbRefilledTokens tb.bucketSize tb.refillRatePerSecond t₁ tst - 1 -
              ((1 : ℤ) : ℚ) by push_cast; ring]
          rw [Int.floor_sub_int]
        omega
  -- sliding-window log
  · intro h1 h2
    by_cases hc1 : swl.bucketSize ≤ ((List.filter
        (fun m => decide (t₂ - swl.windowSizeSeconds * NanosecondsPerSecond < m))
        lst.members).length : ℤ)
    · rw [swl_isAllowed_deny_allowed swl lst t₂ hc1] at h1
      simp at h1
    · simp only [swl_isAllowed_allow_spec swl lst t₂ hc1] at h2 ⊢
      have hkeep : decide (t₂ - swl.windowSizeSeconds * NanosecondsPerSecond < t₂) = true := by
        simp only [decide_eq_true_eq]
        have h9 : 0 < NanosecondsPerSecond := by norm_num [NanosecondsPerSecond]
        nlinarith
      have hfilter : List.filter
          (fun m => decide (t₂ - swl.windowSizeSeconds * NanosecondsPerSecond < m))
          (t₂ :: List.filter
            (fun m => decide (t₂ - swl.windowSizeSeconds * NanosecondsPerSecond < m))
            lst.members) =
          t₂ :: List.filter
            (fun m => decide (t₂ - swl.windowSizeSeconds * NanosecondsPerSecond < m))
            lst.members := by
        rw [List.filter_cons, if_pos hkeep, list_filter_idem]
      by_cases hc2 : swl.bucketSize ≤ (((t₂ :: List.filter
          (fun m => decide (t₂ - swl.windowSizeSeconds * NanosecondsPerSecond < m))
          lst.members)).length : ℤ)
      · have hc2' : swl.bucketSize ≤ ((List.filter
            (fun m => decide (t₂ - swl.windowSizeSeconds * NanosecondsPerSecond < m))
            (t₂ :: List.filter
              (fun m => decide (t₂ - swl.windowSizeSeconds * NanosecondsPerSecond < m))
              lst.members)).length : ℤ) := by
          rw [hfilter]
          exact hc2
        rw [swl_isAllowed_deny_allowed swl _ t₂ hc2'] at h2
        simp at h2
      · have hc2' : ¬ swl.bucketSize ≤ ((List.filter
            (fun m => decide (t₂ - swl.windowSizeSeconds * NanosecondsPerSecond < m))
            (t₂ :: List.filter
              (fun m => decide (t₂ - swl.windowSizeSeconds * NanosecondsPerSecond < m))
              lst.members)).length : ℤ) := by
          rw [hfilter]
          exact hc2
        simp only [swl_isAllowed_allow_spec swl
          ⟨t₂ :: List.filter
            (fun m => decide (t₂ - swl.windowSizeSeconds * NanosecondsPerSecond < m))
            lst.members, some (swl.windowSizeSeconds + swl.ttlBuffer)⟩ t₂ hc2', hfilter]
        simp only [List.length_cons]
        push_cast
        omega
  -- sliding-window counter
  · intro h1 h2
    by_cases hw1 : swc.bucketSize ≤ swc.weighted cst t₃
    · simp [swc_isAllowed_deny swc cst t₃ hw1] at h1
    · push_neg at hw1
      simp only [swc_isAllowed_allow swc cst t₃ hw1] at h2 ⊢
      have hcnt2 : swc.counts
          { current := some ⟨(swc.counts cst t₃).1 + 1, swc.currentWindowStart t₃⟩,
            previous := some ⟨(swc.counts cst t₃).2,
              swc.currentWindowStart t₃ - swc.windowSizeNanos⟩,
            currentTtlSeconds := some swc.scriptTtlSeconds,
            previousTtlSeconds := some swc.scriptTtlSeconds } t₃ =
          ((swc.counts cst t₃).1 + 1, (swc.counts cst t₃).2) := by
        simp [SlidingWindowCounterRateLimiter.counts, swcReadCounts]
      have hw2 : swc.weighted
          { current := some ⟨(swc.counts cst t₃).1 + 1, swc.currentWindowStart t₃⟩,
            previous := some ⟨(swc.counts cst t₃).2,
              swc.currentWindowStart t₃ - swc.windowSizeNanos⟩,
            currentTtlSeconds := some swc.scriptTtlSeconds,
            previousTtlSeconds := some swc.scriptTtlSeconds } t₃ =
          swc.weighted cst t₃ + 1 := by
        simp only [SlidingWindowCounterRateLimiter.weighted, hcnt2]
        push_cast
        rw [show ((swc.counts cst t₃).1 : ℚ) + 1 +
            ((swc.counts cst t₃).2 : ℚ) * (1 - swc.windowProgress t₃) =
            (((swc.counts cst t₃).1 : ℚ) +
              ((swc.counts cst t₃).2 : ℚ) * (1 - swc.windowProgress t₃)) + 1 by ring]
        exact Int.floor_add_one _
      by_cases hw2' : swc.bucketSize ≤ swc.weighted
          { current := some ⟨(swc.counts cst t₃).1 + 1, swc.currentWindowStart t₃⟩,
            previous := some ⟨(swc.counts cst t₃).2,
              swc.currentWindowStart t₃ - swc.windowSizeNanos⟩,
            currentTtlSeconds := some swc.scriptTtlSeconds,
            previousTtlSeconds := some swc.scriptTtlSeconds } t₃
      · simp [swc_isAllowed_deny swc _ t₃ hw2'] at h2
      · push_neg at hw2'
        simp only [swc_isAllowed_allow swc _ t₃ hw2', hw2]
        rw [hw2] at hw2'
        omega

/-- Witness for C7 (amended): a 10-second log window (hypothesis
`0 < windowSizeSeconds` discharged at 10). -/
theorem consecutive_allows_decrease_remaining_witness :
    (((TokenBucketRateLimiter.mk 3 1 "tb" 60).isAllowed none 0).2.allowed = true →
      ((TokenBucketRateLimiter.mk 3 1 "tb" 60).isAllowed
        ((TokenBucketRateLimiter.mk 3 1 "tb" 60).isAllowed none 0).1 0).2.allowed = true →
      ((TokenBucketRateLimiter.mk 3 1 "tb" 60).isAllowed
        ((TokenBucketRateLimiter.mk 3 1 "tb" 60).isAllowed none 0).1 0).2.remaining <
        ((TokenBucketRateLimiter.mk 3 1 "tb" 60).isAllowed none 0).2.remaining)
  ∧ (((SlidingWindowLogRateLimiter.mk 10 "swl" 3 60).isAllowed
        SlidingWindowLogState.empty 0).2.allowed = true →
      ((SlidingWindowLogRateLimiter.mk 10 "swl" 3 60).isAllowed
        ((SlidingWindowLogRateLimiter.mk 10 "swl" 3 60).isAllowed
          SlidingWindowLogState.empty 0).1 0).2.allowed = true →
      ((SlidingWindowLogRateLimiter.mk 10 "swl" 3 60).isAllowed
        ((SlidingWindowLogRateLimiter.mk 10 "swl" 3 60).isAllowed
          SlidingWindowLogState.empty 0).1 0).2.remaining <
        ((SlidingWindowLogRateLimiter.mk 10 "swl" 3 60).isAllowed
          SlidingWindowLogState.empty 0).2.remaining)
  ∧ (((SlidingWindowCounterRateLimiter.mk 10000000000 "swc" 3 60).isAllowed
        SlidingWindowCounterState.empty 0).2.allowed = true →
      ((SlidingWindowCounterRateLimiter.mk 10000000000 "swc" 3 60).isAllowed
        ((SlidingWindowCounterRateLimiter.mk 10000000000 "swc" 3 60).isAllowed
          SlidingWindowCounterState.empty 0).1 0).2.allowed = true →
      ((SlidingWindowCounterRateLimiter.mk 10000000000 "swc" 3 60).isAllowed
        ((SlidingWindowCounterRateLimiter.mk 10000000000 "swc" 3 60).isAllowed
          SlidingWindowCounterState.empty 0).1 0).2.remaining <
        ((SlidingWindowCounterRateLimiter.mk 10000000000 "swc" 3 60).isAllowed
          SlidingWindowCounterState.empty 0).2.remaining) :=
  consecutive_allows_decrease_remaining (TokenBucketRateLimiter.mk 3 1 "tb" 60) none 0
    (SlidingWindowLogRateLimiter.mk 10 "swl" 3 60) (by decide)
    SlidingWindowLogState.empty 0
    (SlidingWindowCounterRateLimiter.mk 10000000000 "swc" 3 60)
    SlidingWindowCounterState.empty 0

/-- Counterexample to C7 as stated: a 500 ms window passes the log
constructor but truncates to 0 s; two calls at the same timestamp are then
both allowed with the same `remaining` (the first member is pruned by the
second call), so `remaining` does not strictly decrease and no deny ever
occurs. -/
theorem consecutive_allows_decrease_remaining_counterexample :
    NewSlidingWindowLogRateLimiter ⟨500000000, 1, "swl", 60⟩ true =
      some ⟨0, "swl", 1, 60⟩ ∧
    ((SlidingWindowLogRateLimiter.mk 0 "swl" 1 60).run SlidingWindowLogState.empty
      [0, 0]).2.map (fun r => (r.allowed, r.remaining)) = [(true, 0), (true, 0)] := by
  constructor
  · have hq : goQuo 500000000 1000000000 = 0 := by decide
    simp [NewSlidingWindowLogRateLimiter, NanosecondsPerSecond, hq]
  · norm_num [SlidingWindowLogRateLimiter.run, SlidingWindowLogRateLimiter.isAllowed,
      slidingWindowLogScript, SlidingWindowLogState.empty, ratTrunc, NanosecondsPerSecond]

/-- C9: the instrumentation wrapper records the call duration
unconditionally after the inner call, records the decision only when the
inner call returned no error, returns the inner response and error
unchanged, and its `Reset` delegates untouched. -/
theorem metricsDecorator_transparent {α β : Type} (strategy : String)
    (allowedOf : α → Bool) (resp : α) (err : Option String) (durationNanos : ℤ)
    (resetResult : β) :
    (MetricsDecorator.isAllowed strategy allowedOf resp err durationNanos).2 = (resp, err)
  ∧ MetricsEvent.duration strategy durationNanos ∈
      (MetricsDecorator.isAllowed strategy allowedOf resp err durationNanos).1
  ∧ (err = none →
      (MetricsDecorator.isAllowed strategy allowedOf resp err durationNanos).1 =
        [MetricsEvent.duration strategy durationNanos,
         MetricsEvent.decision strategy (allowedOf resp)])
  ∧ (err ≠ none →
      (MetricsDecorator.isAllowed strategy allowedOf resp err durationNanos).1 =
        [MetricsEvent.duration strategy durationNanos])
  ∧ MetricsDecorator.reset resetResult = resetResult := by
  refine ⟨rfl, ?_, ?_, ?_, rfl⟩
  · simp [MetricsDecorator.isAllowed]
  · intro h
    simp [MetricsDecorator.isAllowed, h]
  · intro h
    simp [MetricsDecorator.isAllowed, h]

/-- Witness for C9: a successful inner call (decision recorded after the
duration) and a failed one (no decision recorded). -/
theorem metricsDecorator_transparent_witness :
    (MetricsDecorator.isAllowed "token_bucket" (fun r : Bool => r) true none 5).1 =
      [MetricsEvent.duration "token_bucket" 5, MetricsEvent.decision "token_bucket" true]
  ∧ (MetricsDecorator.isAllowed "token_bucket" (fun r : Bool => r) true
      (some "redis down") 5).1 = [MetricsEvent.duration "token_bucket" 5]
  ∧ (MetricsDecorator.isAllowed "token_bucket" (fun r : Bool => r) true
      (some "redis down") 5).2 = (true, some "redis down") := by
  refine ⟨?_, ?_, ?_⟩
  · exact (metricsDecorator_transparent "token_bucket" (fun r : Bool => r) true none 5
      (0 : ℤ)).2.2.1 rfl
  · exact (metricsDecorator_transparent "token_bucket" (fun r : Bool => r) true
      (some "redis down") 5 (0 : ℤ)).2.2.2.1 (by simp)
  · exact (metricsDecorator_transparent "token_bucket" (fun r : Bool => r) true
      (some "redis down") 5 (0 : ℤ)).1

end GoRateLimiter
